import Mathlib

set_option maxHeartbeats 1000000

/-!
Verification of the identifier resolution and deduplication engine of a
compound-catalog web application.  The development shallowly embeds, from the
Python sources:

* the input-shape detectors and the induced identifier classifier
  (gui_app/normalize_compound.py, lines 22-28);
* the response handling of the PubChem source adapters
  (normalize_compound.py, get_cid_from_pubchem and get_names_from_pubchem),
  with Python exceptions made explicit in an Except monad;
* the resolution pipeline get_compound_data (normalize_compound.py,
  lines 273-435), with the external cheminformatics primitives (RDKit, molvs)
  and the HTTP adapters modelled as an explicit environment of pure
  functions - Mol-mediated RDKit calls are modelled as functions of the
  SMILES string the Mol was parsed from, since Chem.MolFromSmiles is
  deterministic;
* the pre-insert duplicate check and insert of the upload route
  (gui_app/app.py, lines 53-166), over a catalog modelled as a list of rows
  restricted to the columns the check consults;
* the out-of-band duplicate-removal script (remove_duplicates.py).

Python truthiness of optional strings (None and the empty string are falsy)
is modelled by strOpt / truthyS and used exactly where the source tests
truthiness.
-/

/-- Python truthiness of an optional string: None and the empty string are
falsy; strOpt returns the string exactly when it is truthy. -/
def strOpt : Option String → Option String
  | none => none
  | some s => if s = "" then none else some s

/-- Boolean truthiness of an optional string. -/
def truthyS (o : Option String) : Bool := (strOpt o).isSome

/-- The whitespace characters removed by Python str.strip (ASCII range). -/
def pyIsSpace (c : Char) : Bool :=
  c = ' ' || c = '\t' || c = '\n' || c = '\r' || c = '\x0b' || c = '\x0c'

/-- Python str.strip(): drop leading and trailing whitespace. -/
def pyStrip (s : String) : String :=
  ⟨((s.data.dropWhile pyIsSpace).reverse.dropWhile pyIsSpace).reverse⟩

/-- An ASCII uppercase letter: the character class of INCHIKEY_REGEX. -/
def upperAZ (c : Char) : Bool := 'A' ≤ c && c ≤ 'Z'

/-- Match exactly n uppercase letters and return the remaining input, as the
regex fragment with a counted repetition does. -/
def matchUpperN : Nat → List Char → Option (List Char)
  | 0, l => some l
  | _ + 1, [] => none
  | n + 1, c :: l => if upperAZ c then matchUpperN n l else none

/-- The anchored INCHIKEY_REGEX of normalize_compound.py:
fourteen uppercase letters, a hyphen, ten uppercase letters, a hyphen, one
uppercase letter, and nothing else. -/
def inchikeyMatch (l : List Char) : Bool :=
  match matchUpperN 14 l with
  | some ('-' :: r1) =>
    match matchUpperN 10 r1 with
    | some ('-' :: r2) =>
      match matchUpperN 1 r2 with
      | some [] => true
      | _ => false
    | _ => false
  | _ => false

/-- normalize_compound.looks_like_inchikey: the regex matched against the
stripped text. -/
def looks_like_inchikey (text : String) : Bool :=
  inchikeyMatch (pyStrip text).data

/-- An ASCII decimal digit (Python str.isdigit restricted to ASCII input). -/
def asciiDigit (c : Char) : Bool := '0' ≤ c && c ≤ '9'

/-- normalize_compound.looks_like_pubchem_cid: Python text.isdigit(), true
exactly for a nonempty string of digits. -/
def looks_like_pubchem_cid (text : String) : Bool :=
  text != "" && text.data.all asciiDigit

/-- The three identifier kinds the resolution pipeline distinguishes. -/
inductive ClassifiedIdentifier where
  | StandardizedKey
  | RegistryNumber
  | FreeTextOrStructure
deriving DecidableEq

/-- The identifier classifier: the source's two shape detectors applied in
rule order (standardized-key shape, then all-digits, otherwise free text or
structure notation).  The two shapes are disjoint, so this is also the order
get_compound_data tests them in. -/
def classify (text : String) : ClassifiedIdentifier :=
  if looks_like_inchikey text then .StandardizedKey
  else if looks_like_pubchem_cid text then .RegistryNumber
  else .FreeTextOrStructure

/-- The standardized-key shape in the words of the specification: three
hyphen-delimited uppercase letter groups of lengths 14, 10 and 1, matched on
the stripped text. -/
def SpecKeyShape (t : String) : Prop :=
  ∃ g1 g2 g3 : List Char,
    g1.length = 14 ∧ g2.length = 10 ∧ g3.length = 1 ∧
    (∀ c ∈ g1, upperAZ c = true) ∧ (∀ c ∈ g2, upperAZ c = true) ∧
    (∀ c ∈ g3, upperAZ c = true) ∧
    (pyStrip t).data = g1 ++ '-' :: (g2 ++ '-' :: g3)

/-- A source link: contributing database name plus reference URL. -/
structure SourceLink where
  db_name : String
  url : String
deriving DecidableEq

/-- get_compound_data's local helper add_source: append a link unless a link
with the same db_name is already present. -/
def add_source (sources : List SourceLink) (db_name url : String) :
    List SourceLink :=
  if !(sources.any fun s => s.db_name == db_name) then
    sources ++ [{ db_name := db_name, url := url }]
  else sources

/-- The number of links carried for a given source name. -/
def countName (sources : List SourceLink) (n : String) : Nat :=
  (sources.filter fun s => s.db_name == n).length

/-- The names dictionary returned by get_names_from_pubchem. -/
structure PubChemNames where
  iupac_name : Option String
  common_name : Option String
deriving DecidableEq

/-- The external capability interface consumed by get_compound_data: the
RDKit / molvs primitives and the HTTP source adapters, as pure functions.
Mol-mediated RDKit calls are functions of the SMILES string the Mol was
parsed from (Chem.MolFromSmiles is deterministic); parseOk is the truthiness
of Chem.MolFromSmiles; standardize_smiles may raise, hence Except; the
adapter calls return the not-found sentinel None on any caught failure.
urlquote is urllib.parse.quote. -/
structure Env where
  parseOk : String → Bool
  inchiOf : String → String
  inchikeyOfInchi : String → String
  drawSvg : String → String
  calcMolFormula : String → String
  calcExactMolWt : String → Int
  standardize_smiles : String → Except Unit String
  morganFingerprint : Nat → Nat → String → String
  urlquote : String → String
  get_cid_from_inchikey : String → Option String
  get_cid_from_pubchem : String → Option String
  get_inchikey_from_pubchem : String → Option String
  get_smiles_from_pubchem : String → Option String
  get_names_from_pubchem : String → PubChemNames
  get_smiles_from_chembl : String → Option String
  get_drugbank_url_from_inchikey : String → Option String
  get_drugbank_url_from_pubchem_cid : String → Option String

/-- normalize_compound.generate_2d_structure_svg: None when the SMILES does
not parse, else the drawing. -/
def generate_2d_structure_svg (env : Env) (smiles : String) : Option String :=
  if env.parseOk smiles then some (env.drawSvg smiles) else none

/-- The local variables of get_compound_data, threaded through the blocks of
the function body in source order. -/
structure RState where
  smiles : Option String
  iupac_name : Option String
  common_name : Option String
  sources : List SourceLink
  pubchem_cid : Option String
  inchi : Option String
  inchi_key : Option String
  structure_2d_svg : Option String
  molecular_formula : Option String
  molecular_weight : Option Int
  smiles_normalized : Option String
  fingerprint : Option String
  current_pubchem_cid : Option String
deriving DecidableEq

/-- The initialisation block of get_compound_data: every variable None, the
source list empty. -/
def initState : RState :=
  { smiles := none, iupac_name := none, common_name := none, sources := [],
    pubchem_cid := none, inchi := none, inchi_key := none,
    structure_2d_svg := none, molecular_formula := none,
    molecular_weight := none, smiles_normalized := none, fingerprint := none,
    current_pubchem_cid := none }

/-- Block 1 (lines 297-305): try to parse the identifier as SMILES; on
success adopt it as the raw structure and record the user-provided link. -/
def step1_parse (env : Env) (identifier : String) (st : RState) : RState :=
  if env.parseOk identifier then
    { st with smiles := some identifier,
              sources := add_source st.sources "User-provided" "#" }
  else st

/-- Block 2, first half (lines 307-333): determine a working PubChem CID -
directly when the identifier is all digits, else via the identifier as
InChIKey, else via the InChIKey derived from a parsed SMILES, else by a
name lookup. -/
def step2_resolve_cid (env : Env) (identifier : String) (st : RState) :
    RState :=
  let current1 := if looks_like_pubchem_cid identifier then some identifier
    else none
  let byKey := !(truthyS current1) && looks_like_inchikey identifier
  let inchi_key2 := if byKey then some identifier else st.inchi_key
  let current2 := if byKey then env.get_cid_from_inchikey identifier
    else current1
  let smilesParsed : Option String :=
    match strOpt st.smiles with
    | some s => if env.parseOk s then some s else none
    | none => none
  let inchi3 := match smilesParsed with
    | some s => some (env.inchiOf s)
    | none => st.inchi
  let inchi_key3 := match smilesParsed with
    | some s => some (env.inchikeyOfInchi (env.inchiOf s))
    | none => inchi_key2
  let current3 := match smilesParsed with
    | some s => env.get_cid_from_inchikey (env.inchikeyOfInchi (env.inchiOf s))
    | none => current2
  let current4 := if truthyS current3 then current3
    else env.get_cid_from_pubchem identifier
  { st with inchi := inchi3, inchi_key := inchi_key3,
            current_pubchem_cid := current4 }

/-- Block 2, second half (lines 335-360): when a CID is available, record the
PubChem link, fetch the InChIKey when still unknown, fetch a SMILES (adopted
only when none is set yet) and, only when that fetch yielded a structure,
fetch and adopt the names. -/
def step2_pubchem_fetch (env : Env) (st : RState) : RState :=
  match strOpt st.current_pubchem_cid with
  | none => st
  | some cid =>
    let url := "https://pubchem.ncbi.nlm.nih.gov/compound/" ++ cid
    let sources1 := add_source st.sources "PubChem" url
    let inchi_key1 :=
      if !(truthyS st.inchi_key) then
        match strOpt (env.get_inchikey_from_pubchem cid) with
        | some k => some k
        | none => st.inchi_key
      else st.inchi_key
    match strOpt (env.get_smiles_from_pubchem cid) with
    | some ps =>
      let smiles1 := if !(truthyS st.smiles) then some ps else st.smiles
      let names := env.get_names_from_pubchem cid
      let iupac1 := match strOpt names.iupac_name with
        | some i => some i
        | none => st.iupac_name
      let common1 := match strOpt names.common_name with
        | some c => some c
        | none => st.common_name
      { st with pubchem_cid := some cid, sources := sources1,
                inchi_key := inchi_key1, smiles := smiles1,
                iupac_name := iupac1, common_name := common1 }
    | none =>
      { st with pubchem_cid := some cid, sources := sources1,
                inchi_key := inchi_key1 }

/-- Block 3 (lines 362-367): ChEMBL name lookup; adopt the structure only
when none is set yet, record the ChEMBL link whenever a structure came
back. -/
def step3_chembl (env : Env) (identifier : String) (st : RState) : RState :=
  match strOpt (env.get_smiles_from_chembl identifier) with
  | some cs =>
    let smiles1 := if !(truthyS st.smiles) then some cs else st.smiles
    let url := "https://www.ebi.ac.uk/chembl/g/#search_results/all/query="
      ++ env.urlquote identifier
    { st with smiles := smiles1,
              sources := add_source st.sources "ChEMBL" url }
  | none => st

/-- Block 4 (lines 369-379): when a SMILES is known, render the depiction and
derive InChI and InChIKey from it. -/
def step4_svg_inchikey (env : Env) (st : RState) : RState :=
  match strOpt st.smiles with
  | some s =>
    let svg := generate_2d_structure_svg env s
    if env.parseOk s then
      let i := env.inchiOf s
      { st with structure_2d_svg := svg, inchi := some i,
                inchi_key := some (env.inchikeyOfInchi i) }
    else { st with structure_2d_svg := svg }
  | none => st

/-- Blocks 5 and 5b (lines 381-398): DrugBank link via UniChem by InChIKey,
else - when no DrugBank link was recorded and a CID is known - via PubChem
cross-references. -/
def step5_drugbank (env : Env) (st : RState) : RState :=
  let sources1 :=
    match strOpt st.inchi_key with
    | some k =>
      match strOpt (env.get_drugbank_url_from_inchikey k) with
      | some u => add_source st.sources "DrugBank" u
      | none => st.sources
    | none => st.sources
  let sources2 :=
    if !(sources1.any fun s => s.db_name == "DrugBank") then
      match strOpt st.pubchem_cid with
      | some cid =>
        match strOpt (env.get_drugbank_url_from_pubchem_cid cid) with
        | some u => add_source sources1 "DrugBank" u
        | none => sources1
      | none => sources1
    else sources1
  { st with sources := sources2 }

/-- Lines 400-408: molecular formula and exact weight from the SMILES. -/
def step6_formula_weight (env : Env) (st : RState) : RState :=
  match strOpt st.smiles with
  | some s =>
    if env.parseOk s then
      { st with molecular_formula := some (env.calcMolFormula s),
                molecular_weight := some (env.calcExactMolWt s) }
    else st
  | none => st

/-- Lines 410-420: re-initialise, standardize the SMILES with molvs, and
compute the 2048-bit Morgan fingerprint (radius 2) from the normalized form;
a standardization failure leaves both fields None. -/
def step7_normalize_fingerprint (env : Env) (st : RState) : RState :=
  match strOpt st.smiles with
  | some s =>
    match env.standardize_smiles s with
    | .ok ns =>
      if env.parseOk ns then
        { st with smiles_normalized := some ns,
                  fingerprint := some (env.morganFingerprint 2 2048 ns) }
      else { st with smiles_normalized := some ns, fingerprint := none }
    | .error _ => { st with smiles_normalized := none, fingerprint := none }
  | none => { st with smiles_normalized := none, fingerprint := none }

/-- The dictionary returned by get_compound_data (lines 422-435). -/
structure CompoundData where
  smiles_raw : Option String
  smiles_normalized : Option String
  iupac_name : Option String
  common_name : Option String
  sources : List SourceLink
  pubchem_cid : Option String
  structure_2d_svg : Option String
  inchi : Option String
  inchi_key : Option String
  molecular_formula : Option String
  molecular_weight : Option Int
  fingerprint : Option String
deriving DecidableEq

/-- Projection of the final variable state onto the returned dictionary. -/
def toResult (st : RState) : CompoundData :=
  { smiles_raw := st.smiles, smiles_normalized := st.smiles_normalized,
    iupac_name := st.iupac_name, common_name := st.common_name,
    sources := st.sources, pubchem_cid := st.pubchem_cid,
    structure_2d_svg := st.structure_2d_svg, inchi := st.inchi,
    inchi_key := st.inchi_key, molecular_formula := st.molecular_formula,
    molecular_weight := st.molecular_weight, fingerprint := st.fingerprint }

/-- normalize_compound.get_compound_data: the blocks in source order; none
models the error dictionary returned for an empty identifier. -/
def get_compound_data (env : Env) (identifier : String) :
    Option CompoundData :=
  if identifier = "" then none
  else
    some (toResult
      (step7_normalize_fingerprint env
        (step6_formula_weight env
          (step5_drugbank env
            (step4_svg_inchikey env
              (step3_chembl env identifier
                (step2_pubchem_fetch env
                  (step2_resolve_cid env identifier
                    (step1_parse env identifier initState)))))))))

/-- The columns of the compounds table consulted by the duplicate check and
by remove_duplicates, plus the surrogate key compound_id. -/
structure DbRow where
  compound_id : Nat
  inchi_key : Option String
  smiles_normalized : Option String
  smiles_raw : Option String
  common_name : Option String
deriving DecidableEq

/-- One dedup query of upload: SELECT ... WHERE column = value, first row.
The query is issued only when the probe field is truthy; SQL equality with a
non-null parameter never matches a NULL column. -/
def lookupExact (cat : List DbRow) (proj : DbRow → Option String)
    (v : Option String) : Option DbRow :=
  match strOpt v with
  | some x => cat.find? fun r => proj r == some x
  | none => none

/-- SQLite NOCASE case folding: the 26 ASCII uppercase letters are folded to
lowercase (exactly what Char.toLower does), applied characterwise. -/
def nocaseFold (s : String) : List Char := s.data.map Char.toLower

/-- The fourth dedup query of upload: common_name = value COLLATE NOCASE;
NULL columns never match. -/
def lookupNocase (cat : List DbRow) (v : Option String) : Option DbRow :=
  match strOpt v with
  | some x =>
    cat.find? fun r =>
      match r.common_name with
      | some s => nocaseFold s == nocaseFold x
      | none => false
  | none => none

/-- The pre-insert duplicate check of app.upload (lines 91-123): InChIKey,
then normalized SMILES, then raw SMILES, then case-insensitive common name;
the first hit ends the cascade, and a step whose probe field is falsy is
skipped. -/
def findExisting (d : CompoundData) (cat : List DbRow) : Option DbRow :=
  match lookupExact cat DbRow.inchi_key d.inchi_key with
  | some r => some r
  | none =>
    match lookupExact cat DbRow.smiles_normalized d.smiles_normalized with
    | some r => some r
    | none =>
      match lookupExact cat DbRow.smiles_raw d.smiles_raw with
      | some r => some r
      | none => lookupNocase cat d.common_name

/-- The control outcome of one POST to the upload route. -/
inductive UploadOutcome where
  | emptyIdentifier
  | errorNoData
  | unresolvable
  | duplicate (r : DbRow)
  | inserted
deriving DecidableEq

/-- The row upload inserts, restricted to the modelled columns; nextId is the
surrogate id assigned by the database at insert time. -/
def insertRow (cat : List DbRow) (nextId : Nat) (d : CompoundData) :
    List DbRow :=
  cat ++ [{ compound_id := nextId, inchi_key := d.inchi_key,
            smiles_normalized := d.smiles_normalized,
            smiles_raw := d.smiles_raw, common_name := d.common_name }]

/-- The POST branch of app.upload (lines 55-164): strip and reject an empty
identifier, resolve, reject when neither a structure nor any source link was
obtained, run the duplicate cascade, else insert.  Returns the outcome
together with the catalog after the request. -/
def upload (env : Env) (cat : List DbRow) (nextId : Nat)
    (identifier : String) : UploadOutcome × List DbRow :=
  let idt := pyStrip identifier
  if idt = "" then (.emptyIdentifier, cat)
  else
    match get_compound_data env idt with
    | none => (.errorNoData, cat)
    | some d =>
      if !(truthyS d.smiles_raw) && d.sources.isEmpty then
        (.unresolvable, cat)
      else
        match findExisting d cat with
        | some r => (.duplicate r, cat)
        | none => (.inserted, insertRow cat nextId d)

/-- The rows of the compounds table carrying a given non-null InChIKey. -/
def rowsWithKey (cat : List DbRow) (k : String) : List DbRow :=
  cat.filter fun r => r.inchi_key == some k

/-- The first query of remove_duplicates: GROUP BY inchi_key HAVING
COUNT(inchi_key) > 1.  COUNT(inchi_key) counts non-null values, so the group
of NULL keys has count 0 and is never returned; the result is the distinct
non-null keys carried by at least two rows. -/
def duplicate_keys (cat : List DbRow) : List String :=
  ((cat.filterMap DbRow.inchi_key).dedup).filter fun k =>
    1 < (rowsWithKey cat k).length

/-- The per-key query: SELECT compound_id ... WHERE inchi_key = k ORDER BY
compound_id. -/
def sortedIdsForKey (cat : List DbRow) (k : String) : List Nat :=
  List.insertionSort (· ≤ ·) ((rowsWithKey cat k).map DbRow.compound_id)

/-- The smallest compound_id among the rows carrying key k (0 when none). -/
def minIdKey (cat : List DbRow) (k : String) : Nat :=
  (sortedIdsForKey cat k).headD 0

/-- One loop iteration of remove_duplicates: keep the first id of the sorted
group, DELETE the rows whose compound_id is among the rest (no DELETE is
issued when there is nothing to delete). -/
def delete_for_key (cat : List DbRow) (k : String) : List DbRow :=
  match sortedIdsForKey cat k with
  | [] => cat
  | _ :: ids_to_delete =>
    if ids_to_delete.isEmpty then cat
    else cat.filter fun r => !(ids_to_delete.contains r.compound_id)

/-- remove_duplicates.remove_duplicates: the duplicate keys are fetched once
up front; each iteration queries and deletes against the current table
state. -/
def remove_duplicates (cat : List DbRow) : List DbRow :=
  (duplicate_keys cat).foldl delete_for_key cat

/-- A JSON value, the result of response.json(). -/
inductive JVal where
  | jnull
  | jbool (b : Bool)
  | jnum (n : Int)
  | jstr (s : String)
  | jarr (xs : List JVal)
  | jobj (fields : List (String × JVal))

/-- The Python exceptions that can arise while a source adapter handles a
response. -/
inductive PyErr where
  | requestException
  | jsonDecodeError
  | keyError
  | indexError
  | typeError
deriving DecidableEq

/-- Python subscripting v[k] with a string key: a hit or KeyError on a dict,
TypeError on any other value. -/
def jGet (v : JVal) (k : String) : Except PyErr JVal :=
  match v with
  | .jobj fields =>
    match fields.lookup k with
    | some x => .ok x
    | none => .error .keyError
  | _ => .error .typeError

/-- Python subscripting v[i] with a nonnegative integer: IndexError past the
end of a list or string, KeyError on a dict without that key, TypeError on
scalars. -/
def jIndex (v : JVal) (i : Nat) : Except PyErr JVal :=
  match v with
  | .jarr xs =>
    match xs[i]? with
    | some x => .ok x
    | none => .error .indexError
  | .jobj _ => .error .keyError
  | .jstr s =>
    match s.data[i]? with
    | some c => .ok (.jstr (String.mk [c]))
    | none => .error .indexError
  | _ => .error .typeError

/-- Python truthiness of a JSON value (the `if synonyms:` test). -/
def jTruthy : JVal → Bool
  | .jnull => false
  | .jbool b => b
  | .jnum n => n != 0
  | .jstr s => s != ""
  | .jarr xs => !xs.isEmpty
  | .jobj fields => !fields.isEmpty

/-- An HTTP response as the adapter sees it: status code and parsed body
(none when the body is not valid JSON). -/
structure HResp where
  status : Nat
  body : Option JVal

/-- The exceptions caught by the except clauses of the PubChem adapters:
requests.exceptions.RequestException and KeyError.  A response.json() decode
failure is requests' JSONDecodeError, a RequestException subclass in the
requests versions this application runs with, so it is caught too;
IndexError and TypeError are not in the except tuple. -/
def caughtByAdapter : PyErr → Bool
  | .requestException => true
  | .jsonDecodeError => true
  | .keyError => true
  | .indexError => false
  | .typeError => false

/-- normalize_compound.get_cid_from_pubchem (lines 32-46) as a function of
the service response: ok none is the not-found sentinel (non-200 status or a
caught exception), ok (some v) the value data.IdentifierList.CID[0], and
error e an exception escaping the function. -/
def get_cid_from_pubchem (resp : HResp) : Except PyErr (Option JVal) :=
  let body : Except PyErr (Option JVal) :=
    if resp.status == 200 then
      match resp.body with
      | none => .error .jsonDecodeError
      | some data =>
        match jGet data "IdentifierList" with
        | .error e => .error e
        | .ok a =>
          match jGet a "CID" with
          | .error e => .error e
          | .ok b =>
            match jIndex b 0 with
            | .error e => .error e
            | .ok c => .ok (some c)
    else .ok none
  match body with
  | .ok v => .ok v
  | .error e => if caughtByAdapter e then .ok none else .error e

/-- The synonyms half of get_names_from_pubchem: the value assigned to
common_name, or the exception raised while computing it. -/
def synonymsPart (respSyn : HResp) : Except PyErr (Option JVal) :=
  if respSyn.status == 200 then
    match respSyn.body with
    | none => .error .jsonDecodeError
    | some data =>
      match jGet data "InformationList" with
      | .error e => .error e
      | .ok a =>
        match jGet a "Information" with
        | .error e => .error e
        | .ok b =>
          match jIndex b 0 with
          | .error e => .error e
          | .ok c =>
            match jGet c "Synonym" with
            | .error e => .error e
            | .ok synonyms =>
              if jTruthy synonyms then
                match jIndex synonyms 0 with
                | .error e => .error e
                | .ok s => .ok (some s)
              else .ok none
  else .ok none

/-- The IUPAC half of get_names_from_pubchem: the value assigned to
iupac_name, or the exception raised while computing it. -/
def iupacPart (respIupac : HResp) : Except PyErr (Option JVal) :=
  if respIupac.status == 200 then
    match respIupac.body with
    | none => .error .jsonDecodeError
    | some data =>
      match jGet data "PropertyTable" with
      | .error e => .error e
      | .ok a =>
        match jGet a "Properties" with
        | .error e => .error e
        | .ok b =>
          match jIndex b 0 with
          | .error e => .error e
          | .ok c =>
            match jGet c "IUPACName" with
            | .error e => .error e
            | .ok i => .ok (some i)
  else .ok none

/-- normalize_compound.get_names_from_pubchem (lines 98-125) as a function of
the two service responses.  One try block covers both requests, so a caught
exception in the second half keeps the common name assigned by the first;
ok (iupac, common) is the returned dictionary. -/
def get_names_from_pubchem (respSyn respIupac : HResp) :
    Except PyErr (Option JVal × Option JVal) :=
  match synonymsPart respSyn with
  | .error e =>
    if caughtByAdapter e then .ok (none, none) else .error e
  | .ok common =>
    match iupacPart respIupac with
    | .error e =>
      if caughtByAdapter e then .ok (none, common) else .error e
    | .ok iupac => .ok (iupac, common)

theorem strOpt_eq_some {o : Option String} {s : String} :
    strOpt o = some s ↔ o = some s ∧ s ≠ "" := by
  cases o with
  | none => simp [strOpt]
  | some t =>
    by_cases h : t = "" <;> simp [strOpt, h] <;> rintro rfl <;> simp [h]

theorem strOpt_eq_none {o : Option String} :
    strOpt o = none ↔ o = none ∨ o = some "" := by
  cases o with
  | none => simp [strOpt]
  | some t => by_cases h : t = "" <;> simp [strOpt, h]

theorem truthyS_eq_false {o : Option String} :
    truthyS o = false ↔ strOpt o = none := by
  unfold truthyS
  cases h : strOpt o <;> simp

theorem truthyS_eq_true {o : Option String} :
    truthyS o = true ↔ ∃ s, o = some s ∧ s ≠ "" := by
  cases o with
  | none => simp [truthyS, strOpt]
  | some t => by_cases h : t = "" <;> simp [truthyS, strOpt, h]

theorem truthyS_some_of_ne {s : String} (h : s ≠ "") :
    truthyS (some s) = true := truthyS_eq_true.mpr ⟨s, rfl, h⟩

theorem strOpt_some_of_ne {s : String} (h : s ≠ "") :
    strOpt (some s) = some s := strOpt_eq_some.mpr ⟨rfl, h⟩

theorem add_source_second_noop (s : List SourceLink) (n u u2 : String) :
    add_source (add_source s n u) n u2 = add_source s n u := by
  unfold add_source
  by_cases h : s.any (fun x => x.db_name == n) <;>
    simp [h, List.any_append]

theorem countName_le_one_add_source (s : List SourceLink) (m u n : String)
    (h : countName s n ≤ 1) : countName (add_source s m u) n ≤ 1 := by
  unfold add_source
  by_cases hany : s.any (fun x => x.db_name == m)
  · simp [hany, h]
  · simp only [hany, Bool.not_false, if_pos, Bool.false_eq_true,
      not_false_eq_true]
    unfold countName at h ⊢
    rw [List.filter_append, List.length_append]
    by_cases hmn : m = n
    · subst hmn
      have hnil : s.filter (fun x => x.db_name == m) = [] := by
        rw [List.filter_eq_nil_iff]
        intro a ha hb
        rw [List.any_eq_true] at hany
        exact hany ⟨a, ha, hb⟩
      simp [hnil]
    · have : (({ db_name := m, url := u } : SourceLink).db_name == n) = false := by
        simp [hmn]
      simp [List.filter, this, h]

/-- Claim C9: source-link accumulation is idempotent and keyed by source
name: adding a link under an already present db_name is a no-op, and any
sequence of add_source operations starting from the empty list leaves at
most one link per source name. -/
theorem add_source_idempotent_spec :
    (∀ (sources : List SourceLink) (n u u2 : String),
      add_source (add_source sources n u) n u2 = add_source sources n u) ∧
    (∀ (ops : List (String × String)) (n : String),
      countName (ops.foldl (fun acc p => add_source acc p.1 p.2) []) n ≤ 1) := by
  refine ⟨add_source_second_noop, ?_⟩
  intro ops n
  have aux : ∀ (l : List (String × String)) (acc : List SourceLink),
      countName acc n ≤ 1 →
      countName (l.foldl (fun acc p => add_source acc p.1 p.2) acc) n ≤ 1 := by
    intro l
    induction l with
    | nil => intro acc h; exact h
    | cons p ps ih =>
      intro acc h
      exact ih _ (countName_le_one_add_source _ _ _ _ h)
  exact aux ops [] (by simp [countName])

/-- Witness for claim C9 at a concrete operation sequence. -/
theorem add_source_idempotent_spec_witness :
    countName ([("PubChem", "u1"), ("PubChem", "u2"), ("ChEMBL", "u3")].foldl
      (fun acc p => add_source acc p.1 p.2) []) "PubChem" ≤ 1 :=
  add_source_idempotent_spec.2 _ "PubChem"

/-- The response that makes get_cid_from_pubchem raise: HTTP 200 with the
well-formed but empty payload, JSON braces written as B{ B}:
B{"IdentifierList": B{"CID": []B}B}. -/
def emptyCidResp : HResp :=
  { status := 200,
    body := some (.jobj [("IdentifierList", .jobj [("CID", .jarr [])])]) }

/-- Claim C5 (code bug): on an HTTP 200 response whose CID list is empty, the
subscript [0] raises IndexError, which is not in the adapter's except tuple
(RequestException, KeyError), so the exception escapes the adapter instead
of being downgraded to the None sentinel. -/
theorem get_cid_from_pubchem_raises_on_empty_cid_list :
    get_cid_from_pubchem emptyCidResp = .error .indexError := rfl

theorem matchUpperN_complete {n : Nat} {l r : List Char}
    (h : matchUpperN n l = some r) :
    ∃ g : List Char, g.length = n ∧ (∀ c ∈ g, upperAZ c = true) ∧
      l = g ++ r := by
  induction n generalizing l with
  | zero =>
    refine ⟨[], rfl, by simp, ?_⟩
    simpa [matchUpperN] using h
  | succ n ih =>
    cases l with
    | nil => simp [matchUpperN] at h
    | cons c cs =>
      simp only [matchUpperN] at h
      by_cases hc : upperAZ c = true
      · rw [if_pos hc] at h
        rcases ih h with ⟨g, hlen, hup, hl⟩
        refine ⟨c :: g, by simp [hlen], ?_, by simp [hl]⟩
        intro x hx
        rcases List.mem_cons.mp hx with rfl | hx
        · exact hc
        · exact hup x hx
      · rw [if_neg hc] at h
        exact absurd h (by simp)

theorem matchUpperN_sound {g r : List Char}
    (hup : ∀ c ∈ g, upperAZ c = true) :
    matchUpperN g.length (g ++ r) = some r := by
  induction g with
  | nil => simp [matchUpperN]
  | cons c cs ih =>
    simp only [List.length_cons, List.cons_append, matchUpperN]
    rw [if_pos (hup c (by simp))]
    exact ih fun x hx => hup x (List.mem_cons_of_mem _ hx)

theorem inchikeyMatch_iff {l : List Char} :
    inchikeyMatch l = true ↔
      ∃ g1 g2 g3 : List Char,
        g1.length = 14 ∧ g2.length = 10 ∧ g3.length = 1 ∧
        (∀ c ∈ g1, upperAZ c = true) ∧ (∀ c ∈ g2, upperAZ c = true) ∧
        (∀ c ∈ g3, upperAZ c = true) ∧
        l = g1 ++ '-' :: (g2 ++ '-' :: g3) := by
  constructor
  · intro h
    unfold inchikeyMatch at h
    split at h
    · rename_i r1 heq14
      split at h
      · rename_i r2 heq10
        split at h
        · rename_i heq1
          rcases matchUpperN_complete heq14 with ⟨g1, e1, u1, hl1⟩
          rcases matchUpperN_complete heq10 with ⟨g2, e2, u2, hl2⟩
          rcases matchUpperN_complete heq1 with ⟨g3, e3, u3, hl3⟩
          refine ⟨g1, g2, g3, e1, e2, e3, u1, u2, u3, ?_⟩
          rw [hl1, hl2, hl3]
          simp
        · exact absurd h (by simp)
      · exact absurd h (by simp)
    · exact absurd h (by simp)
  · rintro ⟨g1, g2, g3, e1, e2, e3, u1, u2, u3, rfl⟩
    unfold inchikeyMatch
    have m1 : matchUpperN 14 (g1 ++ '-' :: (g2 ++ '-' :: g3))
        = some ('-' :: (g2 ++ '-' :: g3)) := by
      rw [← e1]; exact matchUpperN_sound u1
    have m2 : matchUpperN 10 (g2 ++ '-' :: g3) = some ('-' :: g3) := by
      rw [← e2]; exact matchUpperN_sound u2
    have m3 : matchUpperN 1 g3 = some [] := by
      have h3 := @matchUpperN_sound g3 [] u3
      rw [e3] at h3
      simpa using h3
    rw [m1]
    simp [m2, m3]

theorem pyStrip_data_sublist (s : String) :
    List.Sublist (pyStrip s).data s.data := by
  unfold pyStrip
  have h1 : List.Sublist
      ((s.data.dropWhile pyIsSpace).reverse.dropWhile pyIsSpace)
      (s.data.dropWhile pyIsSpace).reverse := List.dropWhile_sublist _
  have h2 := h1.reverse
  rw [List.reverse_reverse] at h2
  exact h2.trans (List.dropWhile_sublist _)

theorem inchikey_shape_not_digits {t : String}
    (h : looks_like_inchikey t = true) : looks_like_pubchem_cid t = false := by
  rcases inchikeyMatch_iff.mp h with ⟨g1, g2, g3, _, _, _, _, _, _, hl⟩
  have hmem : '-' ∈ (pyStrip t).data := by rw [hl]; simp
  have hmem2 : '-' ∈ t.data := (pyStrip_data_sublist t).subset hmem
  have hall : t.data.all asciiDigit = false := by
    rw [Bool.eq_false_iff]
    intro hc
    rw [List.all_eq_true] at hc
    exact absurd (hc '-' hmem2) (by decide)
  simp [looks_like_pubchem_cid, hall]

/-- Claim C7: the identifier classifier is total by construction and applies
the rules in order: the standardized-key shape (three hyphen-delimited
uppercase groups of lengths 14, 10, 1 on the stripped text) classifies as
StandardizedKey; a nonempty string of digits classifies as RegistryNumber;
every other string classifies as FreeTextOrStructure.  The two shapes are
disjoint, so the rule order is immaterial and agrees with the order the
pipeline tests them in. -/
theorem classify_spec (t : String) :
    (classify t = .StandardizedKey ↔ SpecKeyShape t) ∧
    (classify t = .RegistryNumber ↔
      (t ≠ "" ∧ ∀ c ∈ t.data, asciiDigit c = true)) ∧
    (classify t = .FreeTextOrStructure ↔
      (¬ SpecKeyShape t ∧
        ¬(t ≠ "" ∧ ∀ c ∈ t.data, asciiDigit c = true))) ∧
    (looks_like_inchikey t && looks_like_pubchem_cid t) = false := by
  have hkey : looks_like_inchikey t = true ↔ SpecKeyShape t := by
    unfold looks_like_inchikey SpecKeyShape
    exact inchikeyMatch_iff
  have hdig : looks_like_pubchem_cid t = true ↔
      (t ≠ "" ∧ ∀ c ∈ t.data, asciiDigit c = true) := by
    unfold looks_like_pubchem_cid
    rw [Bool.and_eq_true, List.all_eq_true, bne_iff_ne]
  have hdisj : (looks_like_inchikey t && looks_like_pubchem_cid t) = false := by
    cases hk : looks_like_inchikey t with
    | false => simp
    | true => simp [inchikey_shape_not_digits hk]
  refine ⟨?_, ?_, ?_, hdisj⟩
  · unfold classify
    by_cases hk : looks_like_inchikey t = true
    · simp [hk, ← hkey]
    · rw [if_neg hk]
      constructor
      · intro hc
        by_cases hd : looks_like_pubchem_cid t = true <;> simp [hd] at hc
      · intro hs
        exact absurd (hkey.mpr hs) hk
  · unfold classify
    by_cases hk : looks_like_inchikey t = true
    · rw [if_pos hk]
      constructor
      · intro hc; exact absurd hc (by simp)
      · intro hd
        have := hdisj
        rw [hk, hdig.mpr hd] at this
        simp at this
    · rw [if_neg hk]
      by_cases hd : looks_like_pubchem_cid t = true
      · simp [hd, ← hdig]
      · rw [if_neg hd]
        constructor
        · intro hc; exact absurd hc (by simp)
        · intro hds; exact absurd (hdig.mpr hds) hd
  · unfold classify
    by_cases hk : looks_like_inchikey t = true
    · simp [hk]
      intro hc
      exact absurd (hkey.mp hk) hc
    · rw [if_neg hk]
      by_cases hd : looks_like_pubchem_cid t = true
      · rw [if_pos hd]
        constructor
        · intro hc; exact absurd hc (by simp)
        · rintro ⟨_, h2⟩; exact absurd (hdig.mp hd) h2
      · rw [if_neg hd]
        constructor
        · intro _
          exact ⟨fun hs => absurd (hkey.mpr hs) hk,
            fun hds => absurd (hdig.mpr hds) hd⟩
        · intro _; rfl

/-- Witness for claim C7 at concrete inputs of each class. -/
theorem classify_spec_witness :
    classify "BSYNRYMUTXBXSQ-UHFFFAOYSA-N" = .StandardizedKey ∧
    classify "2244" = .RegistryNumber ∧
    classify "Aspirin" = .FreeTextOrStructure :=
  ⟨((classify_spec "BSYNRYMUTXBXSQ-UHFFFAOYSA-N").1).mpr (by
      refine ⟨"BSYNRYMUTXBXSQ".data, "UHFFFAOYSA".data, "N".data,
        by decide, by decide, by decide, by decide, by decide, by decide,
        by decide⟩),
    ((classify_spec "2244").2.1).mpr (by
      refine ⟨by decide, ?_⟩
      decide),
    ((classify_spec "Aspirin").2.2.1).mpr (by
      constructor
      · intro hs
        have hk := ((classify_spec "Aspirin").1).mpr hs
        revert hk
        decide
      · decide)⟩

theorem lookupExact_sound {cat : List DbRow} {proj : DbRow → Option String}
    {v : Option String} {r : DbRow} (h : lookupExact cat proj v = some r) :
    r ∈ cat ∧ proj r = v := by
  unfold lookupExact at h
  cases hv : strOpt v with
  | none => rw [hv] at h; exact absurd h (by simp)
  | some x =>
    rw [hv] at h
    have hmem := List.mem_of_find?_eq_some h
    have hpred := List.find?_some h
    rw [beq_iff_eq] at hpred
    rcases strOpt_eq_some.mp hv with ⟨rfl, _⟩
    exact ⟨hmem, hpred⟩

/-- Claim C1: the duplicate check evaluates the four exact-match predicates
strictly in the order InChIKey, normalized SMILES, raw SMILES,
case-insensitive common name; the first hit wins; a step whose probe field
is falsy is skipped; whenever a raw-SMILES match exists the result never
comes from the name step (so a raw match is returned over a name match
whenever the two earlier steps miss); and the result is no-match exactly
when all applicable steps miss. -/
theorem dedup_cascade_spec (d : CompoundData) (cat : List DbRow) :
    (∀ proj : DbRow → Option String, lookupExact cat proj none = none) ∧
    (lookupNocase cat none = none) ∧
    (∀ r, lookupExact cat DbRow.inchi_key d.inchi_key = some r →
      findExisting d cat = some r) ∧
    (lookupExact cat DbRow.inchi_key d.inchi_key = none →
      ∀ r, lookupExact cat DbRow.smiles_normalized d.smiles_normalized
          = some r →
        findExisting d cat = some r) ∧
    (lookupExact cat DbRow.inchi_key d.inchi_key = none →
      lookupExact cat DbRow.smiles_normalized d.smiles_normalized = none →
      ∀ r, lookupExact cat DbRow.smiles_raw d.smiles_raw = some r →
        findExisting d cat = some r ∧ r ∈ cat ∧
          r.smiles_raw = d.smiles_raw) ∧
    ((lookupExact cat DbRow.smiles_raw d.smiles_raw).isSome = true →
      ∃ r, findExisting d cat = some r ∧
        (lookupExact cat DbRow.inchi_key d.inchi_key = some r ∨
          lookupExact cat DbRow.smiles_normalized d.smiles_normalized
            = some r ∨
          lookupExact cat DbRow.smiles_raw d.smiles_raw = some r)) ∧
    (findExisting d cat = none ↔
      (lookupExact cat DbRow.inchi_key d.inchi_key = none ∧
        lookupExact cat DbRow.smiles_normalized d.smiles_normalized = none ∧
        lookupExact cat DbRow.smiles_raw d.smiles_raw = none ∧
        lookupNocase cat d.common_name = none)) := by
  refine ⟨?_, ?_, ?_, ?_, ?_, ?_, ?_⟩
  · intro proj; simp [lookupExact, strOpt]
  · simp [lookupNocase, strOpt]
  · intro r h; simp [findExisting, h]
  · intro h1 r h; simp [findExisting, h1, h]
  · intro h1 h2 r h
    rcases lookupExact_sound h with ⟨hmem, hproj⟩
    exact ⟨by simp [findExisting, h1, h2, h], hmem, hproj⟩
  · intro hsome
    cases e1 : lookupExact cat DbRow.inchi_key d.inchi_key with
    | some r => exact ⟨r, by simp [findExisting, e1], Or.inl rfl⟩
    | none =>
      cases e2 : lookupExact cat DbRow.smiles_normalized
          d.smiles_normalized with
      | some r => exact ⟨r, by simp [findExisting, e1, e2], Or.inr (Or.inl rfl)⟩
      | none =>
        cases e3 : lookupExact cat DbRow.smiles_raw d.smiles_raw with
        | some r =>
          exact ⟨r, by simp [findExisting, e1, e2, e3],
            Or.inr (Or.inr rfl)⟩
        | none => rw [e3] at hsome; exact absurd hsome (by simp)
  · constructor
    · intro h
      cases e1 : lookupExact cat DbRow.inchi_key d.inchi_key with
      | some r => simp [findExisting, e1] at h
      | none =>
        cases e2 : lookupExact cat DbRow.smiles_normalized
            d.smiles_normalized with
        | some r => simp [findExisting, e1, e2] at h
        | none =>
          cases e3 : lookupExact cat DbRow.smiles_raw d.smiles_raw with
          | some r => simp [findExisting, e1, e2, e3] at h
          | none =>
            refine ⟨rfl, rfl, rfl, ?_⟩
            simpa [findExisting, e1, e2, e3] using h
    · rintro ⟨e1, e2, e3, e4⟩
      simp [findExisting, e1, e2, e3, e4]

/-- The probe record of the claim C1 witness: a resolution carrying a raw
SMILES and a common name, no key and no normalized form. -/
def c1data : CompoundData :=
  { smiles_raw := some "CCO", smiles_normalized := none, iupac_name := none,
    common_name := some "Ethanol", sources := [], pubchem_cid := none,
    structure_2d_svg := none, inchi := none, inchi_key := none,
    molecular_formula := none, molecular_weight := none, fingerprint := none }

/-- A catalog row matching c1data only by (case-folded) common name. -/
def c1rowName : DbRow :=
  { compound_id := 1, inchi_key := none, smiles_normalized := none,
    smiles_raw := none, common_name := some "ethanol" }

/-- A catalog row matching c1data only by raw SMILES. -/
def c1rowRaw : DbRow :=
  { compound_id := 2, inchi_key := none, smiles_normalized := none,
    smiles_raw := some "CCO", common_name := none }

/-- Witness for claim C1: in a catalog listing the name match before the raw
match, the cascade still returns the raw-SMILES match, not the name match,
even though the name step alone would have hit the other row. -/
theorem dedup_cascade_spec_witness :
    findExisting c1data [c1rowName, c1rowRaw] = some c1rowRaw ∧
    c1rowRaw.smiles_raw = c1data.smiles_raw ∧
    lookupNocase [c1rowName, c1rowRaw] c1data.common_name = some c1rowName :=
  ⟨((dedup_cascade_spec c1data [c1rowName, c1rowRaw]).2.2.2.2.1
      (by decide) (by decide) c1rowRaw (by decide)).1,
    by decide, by rfl⟩

/-- The state of the local variables after the whole body of
get_compound_data has run on a (nonempty) identifier. -/
def pipelineState (env : Env) (identifier : String) : RState :=
  step7_normalize_fingerprint env
    (step6_formula_weight env
      (step5_drugbank env
        (step4_svg_inchikey env
          (step3_chembl env identifier
            (step2_pubchem_fetch env
              (step2_resolve_cid env identifier
                (step1_parse env identifier initState)))))))

theorem get_compound_data_eq (env : Env) (identifier : String) :
    get_compound_data env identifier =
      if identifier = "" then none
      else some (toResult (pipelineState env identifier)) := rfl

theorem step1_of_not_parse {env : Env} {i : String} {st : RState}
    (h : env.parseOk i = false) : step1_parse env i st = st := by
  simp [step1_parse, h]

theorem step1_smiles_of_parse {env : Env} {i : String} {st : RState}
    (h : env.parseOk i = true) : (step1_parse env i st).smiles = some i := by
  simp [step1_parse, h]

theorem step2rc_smiles (env : Env) (i : String) (st : RState) :
    (step2_resolve_cid env i st).smiles = st.smiles := by
  unfold step2_resolve_cid
  repeat' (split <;> try simp_all)

theorem step2pf_smiles_eq (env : Env) (st : RState) :
    (step2_pubchem_fetch env st).smiles =
      match strOpt st.current_pubchem_cid with
      | none => st.smiles
      | some cid =>
        match strOpt (env.get_smiles_from_pubchem cid) with
        | none => st.smiles
        | some ps => if truthyS st.smiles then st.smiles else some ps := by
  unfold step2_pubchem_fetch
  repeat' (split <;> try simp_all)

theorem step3_smiles_eq (env : Env) (i : String) (st : RState) :
    (step3_chembl env i st).smiles =
      match strOpt (env.get_smiles_from_chembl i) with
      | none => st.smiles
      | some cs => if truthyS st.smiles then st.smiles else some cs := by
  unfold step3_chembl
  repeat' (split <;> try simp_all)

theorem step4_smiles (env : Env) (st : RState) :
    (step4_svg_inchikey env st).smiles = st.smiles := by
  unfold step4_svg_inchikey
  repeat' (split <;> try simp_all)

theorem step5_smiles (env : Env) (st : RState) :
    (step5_drugbank env st).smiles = st.smiles := by
  unfold step5_drugbank
  repeat' (split <;> try simp_all)

theorem step6_smiles (env : Env) (st : RState) :
    (step6_formula_weight env st).smiles = st.smiles := by
  unfold step6_formula_weight
  repeat' (split <;> try simp_all)

theorem step7_smiles (env : Env) (st : RState) :
    (step7_normalize_fingerprint env st).smiles = st.smiles := by
  unfold step7_normalize_fingerprint
  repeat' (split <;> try simp_all)

theorem step1_smiles_none_back {env : Env} {i : String} {st : RState}
    (h : (step1_parse env i st).smiles = none) :
    step1_parse env i st = st ∧ st.smiles = none := by
  cases hp : env.parseOk i with
  | false => rw [step1_of_not_parse hp] at h ⊢; exact ⟨rfl, h⟩
  | true => rw [step1_smiles_of_parse hp] at h; exact absurd h (by simp)

theorem step2pf_smiles_none_back {env : Env} {st : RState}
    (h : (step2_pubchem_fetch env st).smiles = none) : st.smiles = none := by
  rw [step2pf_smiles_eq] at h
  revert h
  repeat' (split <;> try simp_all)

theorem step3_smiles_none_back {env : Env} {i : String} {st : RState}
    (h : (step3_chembl env i st).smiles = none) : st.smiles = none := by
  rw [step3_smiles_eq] at h
  revert h
  repeat' (split <;> try simp_all)

theorem step1_other_fields (env : Env) (i : String) (st : RState) :
    (step1_parse env i st).inchi = st.inchi ∧
    (step1_parse env i st).inchi_key = st.inchi_key ∧
    (step1_parse env i st).structure_2d_svg = st.structure_2d_svg ∧
    (step1_parse env i st).molecular_formula = st.molecular_formula ∧
    (step1_parse env i st).molecular_weight = st.molecular_weight ∧
    (step1_parse env i st).iupac_name = st.iupac_name ∧
    (step1_parse env i st).common_name = st.common_name ∧
    (step1_parse env i st).pubchem_cid = st.pubchem_cid := by
  unfold step1_parse
  repeat' (split <;> try simp_all)

theorem step2rc_other_fields (env : Env) (i : String) (st : RState) :
    (step2_resolve_cid env i st).structure_2d_svg = st.structure_2d_svg ∧
    (step2_resolve_cid env i st).molecular_formula = st.molecular_formula ∧
    (step2_resolve_cid env i st).molecular_weight = st.molecular_weight ∧
    (step2_resolve_cid env i st).iupac_name = st.iupac_name ∧
    (step2_resolve_cid env i st).common_name = st.common_name ∧
    (step2_resolve_cid env i st).sources = st.sources ∧
    (step2_resolve_cid env i st).pubchem_cid = st.pubchem_cid := by
  unfold step2_resolve_cid
  repeat' (split <;> try simp_all)

theorem step2rc_inchi_of_none {env : Env} {i : String} {st : RState}
    (h : st.smiles = none) :
    (step2_resolve_cid env i st).inchi = st.inchi := by
  unfold step2_resolve_cid
  simp [h, strOpt]

theorem step2pf_other_fields (env : Env) (st : RState) :
    (step2_pubchem_fetch env st).inchi = st.inchi ∧
    (step2_pubchem_fetch env st).structure_2d_svg = st.structure_2d_svg ∧
    (step2_pubchem_fetch env st).molecular_formula = st.molecular_formula ∧
    (step2_pubchem_fetch env st).molecular_weight = st.molecular_weight := by
  unfold step2_pubchem_fetch
  repeat' (split <;> try simp_all)

theorem step3_other_fields (env : Env) (i : String) (st : RState) :
    (step3_chembl env i st).inchi = st.inchi ∧
    (step3_chembl env i st).inchi_key = st.inchi_key ∧
    (step3_chembl env i st).structure_2d_svg = st.structure_2d_svg ∧
    (step3_chembl env i st).molecular_formula = st.molecular_formula ∧
    (step3_chembl env i st).molecular_weight = st.molecular_weight ∧
    (step3_chembl env i st).iupac_name = st.iupac_name ∧
    (step3_chembl env i st).common_name = st.common_name ∧
    (step3_chembl env i st).pubchem_cid = st.pubchem_cid := by
  unfold step3_chembl
  repeat' (split <;> try simp_all)

theorem step4_other_fields (env : Env) (st : RState) :
    (step4_svg_inchikey env st).molecular_formula = st.molecular_formula ∧
    (step4_svg_inchikey env st).molecular_weight = st.molecular_weight ∧
    (step4_svg_inchikey env st).iupac_name = st.iupac_name ∧
    (step4_svg_inchikey env st).common_name = st.common_name ∧
    (step4_svg_inchikey env st).sources = st.sources ∧
    (step4_svg_inchikey env st).pubchem_cid = st.pubchem_cid := by
  unfold step4_svg_inchikey
  repeat' (split <;> try simp_all)

theorem step4_eq_of_none {env : Env} {st : RState} (h : st.smiles = none) :
    step4_svg_inchikey env st = st := by
  unfold step4_svg_inchikey
  simp [h, strOpt]

theorem step5_other_fields (env : Env) (st : RState) :
    (step5_drugbank env st).inchi = st.inchi ∧
    (step5_drugbank env st).inchi_key = st.inchi_key ∧
    (step5_drugbank env st).structure_2d_svg = st.structure_2d_svg ∧
    (step5_drugbank env st).molecular_formula = st.molecular_formula ∧
    (step5_drugbank env st).molecular_weight = st.molecular_weight ∧
    (step5_drugbank env st).iupac_name = st.iupac_name ∧
    (step5_drugbank env st).common_name = st.common_name ∧
    (step5_drugbank env st).pubchem_cid = st.pubchem_cid := by
  unfold step5_drugbank
  repeat' (split <;> try simp_all)

theorem step6_other_fields (env : Env) (st : RState) :
    (step6_formula_weight env st).inchi = st.inchi ∧
    (step6_formula_weight env st).inchi_key = st.inchi_key ∧
    (step6_formula_weight env st).structure_2d_svg = st.structure_2d_svg ∧
    (step6_formula_weight env st).iupac_name = st.iupac_name ∧
    (step6_formula_weight env st).common_name = st.common_name ∧
    (step6_formula_weight env st).sources = st.sources ∧
    (step6_formula_weight env st).pubchem_cid = st.pubchem_cid := by
  unfold step6_formula_weight
  repeat' (split <;> try simp_all)

theorem step6_eq_of_none {env : Env} {st : RState} (h : st.smiles = none) :
    step6_formula_weight env st = st := by
  unfold step6_formula_weight
  simp [h, strOpt]

theorem step7_other_fields (env : Env) (st : RState) :
    (step7_normalize_fingerprint env st).inchi = st.inchi ∧
    (step7_normalize_fingerprint env st).inchi_key = st.inchi_key ∧
    (step7_normalize_fingerprint env st).structure_2d_svg
      = st.structure_2d_svg ∧
    (step7_normalize_fingerprint env st).molecular_formula
      = st.molecular_formula ∧
    (step7_normalize_fingerprint env st).molecular_weight
      = st.molecular_weight ∧
    (step7_normalize_fingerprint env st).iupac_name = st.iupac_name ∧
    (step7_normalize_fingerprint env st).common_name = st.common_name ∧
    (step7_normalize_fingerprint env st).sources = st.sources ∧
    (step7_normalize_fingerprint env st).pubchem_cid = st.pubchem_cid := by
  unfold step7_normalize_fingerprint
  repeat' (split <;> try simp_all)

theorem step7_of_none {env : Env} {st : RState} (h : st.smiles = none) :
    (step7_normalize_fingerprint env st).smiles_normalized = none ∧
    (step7_normalize_fingerprint env st).fingerprint = none := by
  unfold step7_normalize_fingerprint
  simp [h, strOpt]

theorem step7_fingerprint_eq {env : Env} {st : RState} {s : String}
    (h : st.smiles = some s) (hne : s ≠ "") :
    (step7_normalize_fingerprint env st).smiles_normalized =
      (match env.standardize_smiles s with
        | .ok ns => some ns
        | .error _ => none) ∧
    (step7_normalize_fingerprint env st).fingerprint =
      (match env.standardize_smiles s with
        | .ok ns =>
          if env.parseOk ns then some (env.morganFingerprint 2 2048 ns)
          else none
        | .error _ => none) := by
  unfold step7_normalize_fingerprint
  rw [h, strOpt_some_of_ne hne]
  repeat' (split <;> try simp_all)

theorem pipeline_derived_none (env : Env) (i : String)
    (h : (pipelineState env i).smiles = none) :
    (pipelineState env i).inchi = none ∧
    (pipelineState env i).smiles_normalized = none ∧
    (pipelineState env i).molecular_formula = none ∧
    (pipelineState env i).molecular_weight = none ∧
    (pipelineState env i).fingerprint = none ∧
    (pipelineState env i).structure_2d_svg = none := by
  unfold pipelineState at h ⊢
  set t1 := step1_parse env i initState with ht1
  set t2 := step2_resolve_cid env i t1 with ht2
  set t3 := step2_pubchem_fetch env t2 with ht3
  set t4 := step3_chembl env i t3 with ht4
  set t5 := step4_svg_inchikey env t4 with ht5
  set t6 := step5_drugbank env t5 with ht6
  set t7 := step6_formula_weight env t6 with ht7
  rw [step7_smiles] at h
  have h6 : t6.smiles = none := by
    rw [ht7, step6_smiles] at h; exact h
  have h5 : t5.smiles = none := by
    rw [ht6, step5_smiles] at h6; exact h6
  have h4 : t4.smiles = none := by
    rw [ht5, step4_smiles] at h5; exact h5
  have h3 : t3.smiles = none := by
    rw [ht4] at h4; exact step3_smiles_none_back h4
  have h2 : t2.smiles = none := by
    rw [ht3] at h3; exact step2pf_smiles_none_back h3
  have h1 : t1.smiles = none := by
    rw [ht2, step2rc_smiles] at h2; exact h2
  have hinit : t1 = initState := by
    rw [ht1] at h1 ⊢; exact (step1_smiles_none_back h1).1
  have e76 : t7 = t6 := by rw [ht7]; exact step6_eq_of_none h6
  have e54 : t5 = t4 := by rw [ht5]; exact step4_eq_of_none h4
  obtain ⟨o7i, o7k, o7svg, o7f, o7w, -, -, -, -⟩ := step7_other_fields env t7
  obtain ⟨o6i, o6k, o6svg, o6f, o6w, -, -, -⟩ := step5_other_fields env t5
  obtain ⟨o4i, o4k, o4svg, o4f, o4w, -, -, -⟩ := step3_other_fields env i t3
  obtain ⟨o3i, o3svg, o3f, o3w⟩ := step2pf_other_fields env t2
  obtain ⟨o2svg, o2f, o2w, -, -, -, -⟩ := step2rc_other_fields env i t1
  obtain ⟨o1i, o1k, o1svg, o1f, o1w, -, -, -⟩ := step1_other_fields env i
    initState
  have hrc_inchi : t2.inchi = t1.inchi := by
    rw [ht2]; exact step2rc_inchi_of_none h1
  have hinchi4 : t4.inchi = none := by
    rw [o4i, o3i, hrc_inchi, hinit]; rfl
  have hsvg4 : t4.structure_2d_svg = none := by
    rw [o4svg, o3svg, ht2, (step2rc_other_fields env i t1).1, hinit]; rfl
  have hf4 : t4.molecular_formula = none := by
    rw [o4f, o3f, ht2, (step2rc_other_fields env i t1).2.1, hinit]; rfl
  have hw4 : t4.molecular_weight = none := by
    rw [o4w, o3w, ht2, (step2rc_other_fields env i t1).2.2.1, hinit]; rfl
  have hnf := @step7_of_none env t7 h
  refine ⟨?_, hnf.1, ?_, ?_, hnf.2, ?_⟩
  · rw [o7i, e76, ht6, (step5_other_fields env t5).1, e54, hinchi4]
  · rw [o7f, e76, ht6, (step5_other_fields env t5).2.2.2.1, e54, hf4]
  · rw [o7w, e76, ht6, (step5_other_fields env t5).2.2.2.2.1, e54, hw4]
  · rw [o7svg, e76, ht6, (step5_other_fields env t5).2.2.1, e54, hsvg4]

/-- The environment in which nothing parses and every external call
misses. -/
def nullEnv : Env :=
  { parseOk := fun _ => false, inchiOf := fun _ => "",
    inchikeyOfInchi := fun _ => "", drawSvg := fun _ => "",
    calcMolFormula := fun _ => "", calcExactMolWt := fun _ => 0,
    standardize_smiles := fun _ => .error (),
    morganFingerprint := fun _ _ _ => "", urlquote := fun s => s,
    get_cid_from_inchikey := fun _ => none,
    get_cid_from_pubchem := fun _ => none,
    get_inchikey_from_pubchem := fun _ => none,
    get_smiles_from_pubchem := fun _ => none,
    get_names_from_pubchem :=
      fun _ => { iupac_name := none, common_name := none },
    get_smiles_from_chembl := fun _ => none,
    get_drugbank_url_from_inchikey := fun _ => none,
    get_drugbank_url_from_pubchem_cid := fun _ => none }

/-- Claim C2 counterexample: resolving an InChIKey-shaped identifier with all
sources unavailable yields a record whose structure notation smiles_raw is
null while the canonical structural identifier inchi_key is the input key,
not null - the code adopts the user-supplied key (and can likewise fetch one
by CID) without any structure. -/
theorem derived_fields_cex :
    (get_compound_data nullEnv "AAAAAAAAAAAAAA-AAAAAAAAAA-N").map
        CompoundData.smiles_raw = some none ∧
    (get_compound_data nullEnv "AAAAAAAAAAAAAA-AAAAAAAAAA-N").map
        CompoundData.inchi_key
      = some (some "AAAAAAAAAAAAAA-AAAAAAAAAA-N") := by
  constructor <;> rfl

/-- Claim C2 (amended): whenever the returned record has a null structure
notation, the InChI, normalized form, molecular formula, molecular weight,
fingerprint and rendered depiction are all null; the short-hash key
inchi_key alone is exempt, since it may come from the input identifier or be
fetched by registry id without any structure. -/
theorem derived_fields_null_of_no_smiles (env : Env) (identifier : String)
    (d : CompoundData) (h : get_compound_data env identifier = some d)
    (hs : d.smiles_raw = none) :
    d.inchi = none ∧ d.smiles_normalized = none ∧
    d.molecular_formula = none ∧ d.molecular_weight = none ∧
    d.fingerprint = none ∧ d.structure_2d_svg = none := by
  rw [get_compound_data_eq] at h
  by_cases hid : identifier = ""
  · rw [if_pos hid] at h; exact absurd h (by simp)
  · rw [if_neg hid] at h
    have hd : toResult (pipelineState env identifier) = d :=
      Option.some.inj h
    have hsm : (pipelineState env identifier).smiles = none := by
      rw [← hd] at hs; exact hs
    have hall := pipeline_derived_none env identifier hsm
    rw [← hd]
    exact hall

/-- Witness for the amended claim C2: a free-text identifier that resolves
nowhere gives a record with null structure notation and all derived fields
null. -/
theorem derived_fields_null_of_no_smiles_witness :
    (get_compound_data nullEnv "zzz").map CompoundData.smiles_raw
        = some none ∧
    (get_compound_data nullEnv "zzz").map CompoundData.inchi = some none ∧
    (get_compound_data nullEnv "zzz").map CompoundData.fingerprint
        = some none := by
  have h : get_compound_data nullEnv "zzz"
      = some (toResult (pipelineState nullEnv "zzz")) := rfl
  have hc := derived_fields_null_of_no_smiles nullEnv "zzz"
    (toResult (pipelineState nullEnv "zzz")) h (by rfl)
  rw [h]
  exact ⟨rfl, by simp [hc.1], by simp [hc.2.2.2.2.1]⟩

theorem step2pf_smiles_of_truthy {env : Env} {st : RState}
    (h : truthyS st.smiles = true) :
    (step2_pubchem_fetch env st).smiles = st.smiles := by
  rw [step2pf_smiles_eq]
  repeat' (split <;> try simp_all)

theorem step3_smiles_of_truthy {env : Env} {i : String} {st : RState}
    (h : truthyS st.smiles = true) :
    (step3_chembl env i st).smiles = st.smiles := by
  rw [step3_smiles_eq]
  repeat' (split <;> try simp_all)

theorem pipeline_smiles_eq (env : Env) (i : String) :
    (pipelineState env i).smiles =
      (step3_chembl env i
        (step2_pubchem_fetch env
          (step2_resolve_cid env i
            (step1_parse env i initState)))).smiles := by
  unfold pipelineState
  rw [step7_smiles, step6_smiles, step5_smiles, step4_smiles]

theorem gcd_map_smiles (env : Env) (i : String) (h : i ≠ "") :
    (get_compound_data env i).map CompoundData.smiles_raw
      = some ((pipelineState env i).smiles) := by
  rw [get_compound_data_eq, if_neg h]
  rfl

/-- Claim C3: first-writer-wins for the structure notation.  If the raw text
parses (step 1), the final smiles_raw is the identifier itself no matter what
the sources return; if it does not parse but the primary source yields a
structure by registry id, that structure is final no matter what the
secondary source returns; the secondary source's structure is adopted only
when both earlier steps yielded none; and once a structure is set, neither
the primary-source block nor the secondary-source block overwrites it. -/
theorem first_writer_wins_smiles (env : Env) (identifier : String)
    (hne : identifier ≠ "") :
    (env.parseOk identifier = true →
      (get_compound_data env identifier).map CompoundData.smiles_raw
        = some (some identifier)) ∧
    (env.parseOk identifier = false →
      ∀ cid ps,
        strOpt (step2_resolve_cid env identifier
            (step1_parse env identifier initState)).current_pubchem_cid
          = some cid →
        strOpt (env.get_smiles_from_pubchem cid) = some ps →
        (get_compound_data env identifier).map CompoundData.smiles_raw
          = some (some ps)) ∧
    (env.parseOk identifier = false →
      (∀ cid, strOpt (step2_resolve_cid env identifier
            (step1_parse env identifier initState)).current_pubchem_cid
          = some cid →
        strOpt (env.get_smiles_from_pubchem cid) = none) →
      ∀ cs, strOpt (env.get_smiles_from_chembl identifier) = some cs →
        (get_compound_data env identifier).map CompoundData.smiles_raw
          = some (some cs)) ∧
    (∀ st : RState, truthyS st.smiles = true →
      (step2_pubchem_fetch env st).smiles = st.smiles ∧
      (step3_chembl env identifier st).smiles = st.smiles) := by
  refine ⟨?_, ?_, ?_, fun st h =>
    ⟨step2pf_smiles_of_truthy h, step3_smiles_of_truthy h⟩⟩
  · intro hp
    rw [gcd_map_smiles env identifier hne, pipeline_smiles_eq]
    have h1 : (step1_parse env identifier initState).smiles
        = some identifier := step1_smiles_of_parse hp
    have h2 : (step2_resolve_cid env identifier
        (step1_parse env identifier initState)).smiles = some identifier := by
      rw [step2rc_smiles]; exact h1
    have ht : truthyS (step2_resolve_cid env identifier
        (step1_parse env identifier initState)).smiles = true := by
      rw [h2]; exact truthyS_some_of_ne hne
    have h3 := @step2pf_smiles_of_truthy env _ ht
    have ht3 : truthyS (step2_pubchem_fetch env
        (step2_resolve_cid env identifier
          (step1_parse env identifier initState))).smiles = true := by
      rw [h3]; exact ht
    rw [step3_smiles_of_truthy ht3, h3, h2]
  · intro hp cid ps hcid hps
    rw [gcd_map_smiles env identifier hne, pipeline_smiles_eq]
    have h1 : (step1_parse env identifier initState).smiles = none := by
      rw [step1_of_not_parse hp]; rfl
    have h2 : (step2_resolve_cid env identifier
        (step1_parse env identifier initState)).smiles = none := by
      rw [step2rc_smiles]; exact h1
    have h3 : (step2_pubchem_fetch env
        (step2_resolve_cid env identifier
          (step1_parse env identifier initState))).smiles = some ps := by
      rw [step2pf_smiles_eq, hcid]
      simp only [hps]
      simp [h2, truthyS, strOpt]
    have ht3 : truthyS (step2_pubchem_fetch env
        (step2_resolve_cid env identifier
          (step1_parse env identifier initState))).smiles = true := by
      rw [h3]
      exact truthyS_some_of_ne (strOpt_eq_some.mp hps).2
    rw [step3_smiles_of_truthy ht3, h3]
  · intro hp hmiss cs hcs
    rw [gcd_map_smiles env identifier hne, pipeline_smiles_eq]
    have h1 : (step1_parse env identifier initState).smiles = none := by
      rw [step1_of_not_parse hp]; rfl
    have h2 : (step2_resolve_cid env identifier
        (step1_parse env identifier initState)).smiles = none := by
      rw [step2rc_smiles]; exact h1
    have h3 : (step2_pubchem_fetch env
        (step2_resolve_cid env identifier
          (step1_parse env identifier initState))).smiles = none := by
      rw [step2pf_smiles_eq]
      cases hc : strOpt (step2_resolve_cid env identifier
          (step1_parse env identifier initState)).current_pubchem_cid with
      | none => exact h2
      | some cid => simp [hmiss cid hc, h2]
    rw [step3_smiles_eq, hcs, h3]
    simp [truthyS, strOpt]

/-- The claim C3 witness environment: the identifier parses as a structure
and both sources would return different structures. -/
def fwEnv : Env :=
  { nullEnv with
    parseOk := fun s => s == "CCO",
    get_cid_from_pubchem := fun _ => some "1",
    get_smiles_from_pubchem := fun _ => some "PRIMARY",
    get_smiles_from_chembl := fun _ => some "SECONDARY" }

/-- Witness for claim C3: with the user-provided structure parsed first, the
final structure is the identifier, not either source's answer. -/
theorem first_writer_wins_smiles_witness :
    (get_compound_data fwEnv "CCO").map CompoundData.smiles_raw
      = some (some "CCO") :=
  (first_writer_wins_smiles fwEnv "CCO" (by decide)).1 (by rfl)

theorem pipeline_smiles_ne_empty (env : Env) (i : String) (hne : i ≠ "") :
    (pipelineState env i).smiles ≠ some "" := by
  rw [pipeline_smiles_eq]
  have h1 : (step1_parse env i initState).smiles ≠ some "" := by
    cases hp : env.parseOk i with
    | false => rw [step1_of_not_parse hp]; simp [initState]
    | true => rw [step1_smiles_of_parse hp]; simp [hne]
  have h2 : (step2_resolve_cid env i (step1_parse env i initState)).smiles
      ≠ some "" := by rw [step2rc_smiles]; exact h1
  have h3 : (step2_pubchem_fetch env (step2_resolve_cid env i
      (step1_parse env i initState))).smiles ≠ some "" := by
    rw [step2pf_smiles_eq]
    rcases hc : strOpt (step2_resolve_cid env i
        (step1_parse env i initState)).current_pubchem_cid with _ | cid
    · simp only [hc]; exact h2
    · rcases hf : strOpt (env.get_smiles_from_pubchem cid) with _ | ps
      · simp only [hc, hf]; exact h2
      · simp only [hc, hf]
        split
        · exact h2
        · have hps := (strOpt_eq_some.mp hf).2
          simp [hps]
  rw [step3_smiles_eq]
  rcases hcs : strOpt (env.get_smiles_from_chembl i) with _ | cs
  · simp only [hcs]; exact h3
  · simp only [hcs]
    split
    · exact h3
    · have hne2 := (strOpt_eq_some.mp hcs).2
      simp [hne2]

theorem gcd_smiles_ne_empty {env : Env} {i : String} {d : CompoundData}
    (h : get_compound_data env i = some d) : d.smiles_raw ≠ some "" := by
  rw [get_compound_data_eq] at h
  by_cases hid : i = ""
  · rw [if_pos hid] at h; exact absurd h (by simp)
  · rw [if_neg hid] at h
    have hd := Option.some.inj h
    rw [← hd]
    exact pipeline_smiles_ne_empty env i hid

/-- Claim C4: the upload route reports the unresolvable outcome exactly when
the resolved record carries neither a structure notation nor any source
link; in that case nothing is persisted; and when there is no structure but
at least one source link, the route proceeds - it either redirects to a
duplicate (catalog unchanged) or inserts the link-only partial record. -/
theorem unresolvable_iff (env : Env) (cat : List DbRow) (nextId : Nat)
    (identifier : String) (d : CompoundData)
    (hne : pyStrip identifier ≠ "")
    (hd : get_compound_data env (pyStrip identifier) = some d) :
    ((upload env cat nextId identifier).1 = .unresolvable ↔
      (d.smiles_raw = none ∧ d.sources = [])) ∧
    ((upload env cat nextId identifier).1 = .unresolvable →
      (upload env cat nextId identifier).2 = cat) ∧
    (d.smiles_raw = none → d.sources ≠ [] →
      ((∃ r, (upload env cat nextId identifier).1 = .duplicate r ∧
          (upload env cat nextId identifier).2 = cat) ∨
        ((upload env cat nextId identifier).1 = .inserted ∧
          (upload env cat nextId identifier).2
            = insertRow cat nextId d))) := by
  have hradical := gcd_smiles_ne_empty hd
  have hup : upload env cat nextId identifier =
      (if !(truthyS d.smiles_raw) && d.sources.isEmpty then
        ((.unresolvable : UploadOutcome), cat)
      else
        match findExisting d cat with
        | some r => (.duplicate r, cat)
        | none => (.inserted, insertRow cat nextId d)) := by
    unfold upload
    rw [if_neg hne, hd]
  refine ⟨?_, ?_, ?_⟩
  · rw [hup]
    cases hg : (!(truthyS d.smiles_raw) && d.sources.isEmpty) with
    | true =>
      simp only [if_pos]
      rw [Bool.and_eq_true, Bool.not_eq_eq_eq_not, Bool.not_true] at hg
      have hsm : d.smiles_raw = none := by
        rcases strOpt_eq_none.mp (truthyS_eq_false.mp hg.1) with h | h
        · exact h
        · exact absurd h hradical
      simp only [hsm, List.isEmpty_iff.mp hg.2]
      simp
    | false =>
      simp only [Bool.false_eq_true, if_neg, not_false_eq_true]
      constructor
      · intro hout
        cases hfe : findExisting d cat with
        | some r => rw [hfe] at hout; exact absurd hout (by simp)
        | none => rw [hfe] at hout; exact absurd hout (by simp)
      · rintro ⟨hsm, hsrc⟩
        rw [hsm, hsrc] at hg
        simp [truthyS, strOpt] at hg
  · intro hout
    rw [hup] at hout ⊢
    cases hg : (!(truthyS d.smiles_raw) && d.sources.isEmpty) with
    | true => simp [hg]
    | false =>
      rw [hg] at hout
      simp only [Bool.false_eq_true, if_neg, not_false_eq_true] at hout
      cases hfe : findExisting d cat with
      | some r => rw [hfe] at hout; exact absurd hout (by simp)
      | none => rw [hfe] at hout; exact absurd hout (by simp)
  · intro hsm hsrc
    have hg : (!(truthyS d.smiles_raw) && d.sources.isEmpty) = false := by
      rcases hl : d.sources with _ | ⟨a, l⟩
      · exact absurd hl hsrc
      · simp
    rw [hup, hg]
    simp only [Bool.false_eq_true, if_neg, not_false_eq_true]
    cases hfe : findExisting d cat with
    | some r => exact Or.inl ⟨r, rfl, rfl⟩
    | none => exact Or.inr ⟨rfl, rfl⟩

/-- Witness for claim C4: with every source unavailable and an unparseable
free-text identifier, the route reports unresolvable and the catalog is
untouched. -/
theorem unresolvable_iff_witness :
    (upload nullEnv [] 1 "zzz").1 = .unresolvable ∧
    (upload nullEnv [] 1 "zzz").2 = [] := by
  have hne : pyStrip "zzz" ≠ "" := by decide
  have hd : get_compound_data nullEnv (pyStrip "zzz")
      = some (toResult (pipelineState nullEnv (pyStrip "zzz"))) := rfl
  have hc := unresolvable_iff nullEnv [] 1 "zzz"
    (toResult (pipelineState nullEnv (pyStrip "zzz"))) hne hd
  have h1 := hc.1.mpr ⟨rfl, rfl⟩
  exact ⟨h1, hc.2.1 h1⟩

theorem add_source_mem_name (s : List SourceLink) (n u : String) :
    (add_source s n u).any (fun x => x.db_name == n) = true := by
  unfold add_source
  by_cases h : s.any (fun x => x.db_name == n)
  · simp [h]
  · simp [h, List.any_append]

theorem step2pf_unfold {env : Env} {st : RState} {cid : String}
    (hc : strOpt st.current_pubchem_cid = some cid) :
    step2_pubchem_fetch env st =
      (let sources1 := add_source st.sources "PubChem"
        ("https://pubchem.ncbi.nlm.nih.gov/compound/" ++ cid)
      let inchi_key1 :=
        if !(truthyS st.inchi_key) then
          match strOpt (env.get_inchikey_from_pubchem cid) with
          | some k => some k
          | none => st.inchi_key
        else st.inchi_key
      match strOpt (env.get_smiles_from_pubchem cid) with
      | some ps =>
        let smiles1 := if !(truthyS st.smiles) then some ps else st.smiles
        let iupac1 :=
          match strOpt (env.get_names_from_pubchem cid).iupac_name with
          | some i => some i
          | none => st.iupac_name
        let common1 :=
          match strOpt (env.get_names_from_pubchem cid).common_name with
          | some c => some c
          | none => st.common_name
        { st with pubchem_cid := some cid, sources := sources1,
                  inchi_key := inchi_key1, smiles := smiles1,
                  iupac_name := iupac1, common_name := common1 }
      | none =>
        { st with pubchem_cid := some cid, sources := sources1,
                  inchi_key := inchi_key1 }) := by
  unfold step2_pubchem_fetch
  rw [hc]

/-- Claim C8 counterexample: with a registry id obtained directly from the
digits-shaped identifier but the structure fetch by id unavailable, the
names are never fetched, although they are unknown and the names-by-id call
would have answered. -/
def namesEnv : Env :=
  { nullEnv with
    get_names_from_pubchem :=
      fun _ => { iupac_name := some "2-acetyloxybenzoic acid",
                 common_name := some "Aspirin" } }

/-- Claim C8 counterexample theorem: the registry id 2244 is obtained and the
names-by-id call would return Aspirin, yet the returned record carries no
names, because the names fetch is reached only when the structure fetch by
registry id yielded a structure. -/
theorem names_not_fetched_cex :
    (get_compound_data namesEnv "2244").map CompoundData.pubchem_cid
      = some (some "2244") ∧
    (namesEnv.get_names_from_pubchem "2244").common_name = some "Aspirin" ∧
    (get_compound_data namesEnv "2244").map CompoundData.common_name
      = some none ∧
    (get_compound_data namesEnv "2244").map CompoundData.iupac_name
      = some none := ⟨rfl, rfl, rfl, rfl⟩

/-- Claim C8 (amended): whenever a registry id was obtained, the block
records a PubChem SourceLink and sets pubchem_cid; the standardized key is
fetched by id exactly when still unknown (and adopted when usable); a
structure fetched by id is adopted only if none is set; and the names are
fetched and adopted only when the structure fetch by id returned a usable
structure - when it missed, the names are left untouched even if unknown. -/
theorem pubchem_fetch_step_spec (env : Env) (st : RState) (cid : String)
    (hc : strOpt st.current_pubchem_cid = some cid) :
    ((step2_pubchem_fetch env st).sources.any
        (fun s => s.db_name == "PubChem")) = true ∧
    (step2_pubchem_fetch env st).pubchem_cid = some cid ∧
    (truthyS st.inchi_key = true →
      (step2_pubchem_fetch env st).inchi_key = st.inchi_key) ∧
    (truthyS st.inchi_key = false →
      (step2_pubchem_fetch env st).inchi_key =
        (match strOpt (env.get_inchikey_from_pubchem cid) with
          | some k => some k
          | none => st.inchi_key)) ∧
    (truthyS st.smiles = true →
      (step2_pubchem_fetch env st).smiles = st.smiles) ∧
    (truthyS st.smiles = false →
      (step2_pubchem_fetch env st).smiles =
        (match strOpt (env.get_smiles_from_pubchem cid) with
          | some ps => some ps
          | none => st.smiles)) ∧
    (strOpt (env.get_smiles_from_pubchem cid) = none →
      (step2_pubchem_fetch env st).iupac_name = st.iupac_name ∧
      (step2_pubchem_fetch env st).common_name = st.common_name) ∧
    (∀ ps, strOpt (env.get_smiles_from_pubchem cid) = some ps →
      ((step2_pubchem_fetch env st).iupac_name =
        (match strOpt (env.get_names_from_pubchem cid).iupac_name with
          | some i => some i
          | none => st.iupac_name)) ∧
      ((step2_pubchem_fetch env st).common_name =
        (match strOpt (env.get_names_from_pubchem cid).common_name with
          | some c => some c
          | none => st.common_name))) := by
  rw [step2pf_unfold hc]
  rcases hf : strOpt (env.get_smiles_from_pubchem cid) with _ | ps
  · simp only [hf]
    refine ⟨add_source_mem_name _ _ _, by trivial, ?_, ?_, ?_, ?_, ?_, ?_⟩
    · intro h; simp [h]
    · intro h; simp [h]
    · intro h; trivial
    · intro h; trivial
    · intro h; constructor <;> trivial
    · intro ps h; exact absurd h (by simp)
  · simp only [hf]
    refine ⟨add_source_mem_name _ _ _, by trivial, ?_, ?_, ?_, ?_, ?_, ?_⟩
    · intro h; simp [h]
    · intro h; simp [h]
    · intro h; simp [h]
    · intro h; simp [h]
    · intro h; exact absurd h (by simp)
    · intro ps2 h; constructor <;> trivial

/-- Witness for the amended claim C8 at a concrete state and environment. -/
theorem pubchem_fetch_step_spec_witness :
    ((step2_pubchem_fetch namesEnv
        { initState with current_pubchem_cid := some "2244" }).sources.any
      (fun s => s.db_name == "PubChem")) = true ∧
    (step2_pubchem_fetch namesEnv
        { initState with current_pubchem_cid := some "2244" }).common_name
      = none := by
  have hc : strOpt ({ initState with current_pubchem_cid := some "2244" }
      : RState).current_pubchem_cid = some "2244" := rfl
  have h := pubchem_fetch_step_spec namesEnv
    { initState with current_pubchem_cid := some "2244" } "2244" hc
  refine ⟨h.1, ?_⟩
  rw [(h.2.2.2.2.2.2.1 rfl).2]
  rfl

theorem gcd_fingerprint_eq {env : Env} {i : String} {d : CompoundData}
    {s : String} (h : get_compound_data env i = some d)
    (hs : d.smiles_raw = some s) :
    d.smiles_normalized =
      (match env.standardize_smiles s with
        | .ok ns => some ns
        | .error _ => none) ∧
    d.fingerprint =
      (match env.standardize_smiles s with
        | .ok ns =>
          if env.parseOk ns then some (env.morganFingerprint 2 2048 ns)
          else none
        | .error _ => none) := by
  have hsne : s ≠ "" := by
    intro hempty
    rw [hempty] at hs
    exact gcd_smiles_ne_empty h hs
  rw [get_compound_data_eq] at h
  by_cases hid : i = ""
  · rw [if_pos hid] at h; exact absurd h (by simp)
  · rw [if_neg hid] at h
    have hd := Option.some.inj h
    rw [← hd] at hs ⊢
    unfold pipelineState at hs ⊢
    have hs2 : (step6_formula_weight env (step5_drugbank env
        (step4_svg_inchikey env (step3_chembl env i
        (step2_pubchem_fetch env (step2_resolve_cid env i
        (step1_parse env i initState))))))).smiles = some s := by
      have hs3 : (step7_normalize_fingerprint env
          (step6_formula_weight env (step5_drugbank env
          (step4_svg_inchikey env (step3_chembl env i
          (step2_pubchem_fetch env (step2_resolve_cid env i
          (step1_parse env i initState)))))))).smiles = some s := hs
      rw [step7_smiles] at hs3
      exact hs3
    exact step7_fingerprint_eq hs2 hsne

/-- Claim C6: the fingerprint is computed from the standardized form, not
the raw structure - whenever two resolutions carry raw structures with equal
standardized forms (molvs output as an Except value, so also both failing),
their normalized forms and their 2048-bit fingerprint strings coincide. -/
theorem fingerprint_from_normalized (env : Env) (id1 id2 : String)
    (d1 d2 : CompoundData) (s1 s2 : String)
    (h1 : get_compound_data env id1 = some d1)
    (h2 : get_compound_data env id2 = some d2)
    (hs1 : d1.smiles_raw = some s1) (hs2 : d2.smiles_raw = some s2)
    (heq : env.standardize_smiles s1 = env.standardize_smiles s2) :
    d1.fingerprint = d2.fingerprint ∧
    d1.smiles_normalized = d2.smiles_normalized := by
  obtain ⟨n1, f1⟩ := gcd_fingerprint_eq h1 hs1
  obtain ⟨n2, f2⟩ := gcd_fingerprint_eq h2 hs2
  rw [n1, n2, f1, f2, heq]
  exact ⟨rfl, rfl⟩

/-- The claim C6 witness environment: everything parses, standardization is
a constant map, the sources are silent. -/
def stdEnv : Env :=
  { nullEnv with
    parseOk := fun _ => true,
    standardize_smiles := fun _ => .ok "STD",
    morganFingerprint := fun _ _ s => s ++ "-FP" }

/-- Witness for claim C6: two different raw notations with the same
standardized form produce identical fingerprints. -/
theorem fingerprint_from_normalized_witness :
    (get_compound_data stdEnv "OCC").map CompoundData.fingerprint
      = (get_compound_data stdEnv "CCO").map CompoundData.fingerprint := by
  have hc := fingerprint_from_normalized stdEnv "OCC" "CCO"
    (toResult (pipelineState stdEnv "OCC"))
    (toResult (pipelineState stdEnv "CCO"))
    "OCC" "CCO" rfl rfl rfl rfl rfl
  rw [show get_compound_data stdEnv "OCC"
      = some (toResult (pipelineState stdEnv "OCC")) from rfl]
  rw [show get_compound_data stdEnv "CCO"
      = some (toResult (pipelineState stdEnv "CCO")) from rfl]
  simp [hc.1]

theorem row_eq_of_id_eq {s : List DbRow}
    (hn : (s.map DbRow.compound_id).Nodup) {r1 r2 : DbRow} (h1 : r1 ∈ s)
    (h2 : r2 ∈ s) (hid : r1.compound_id = r2.compound_id) : r1 = r2 :=
  List.inj_on_of_nodup_map hn h1 h2 hid

theorem mem_rowsWithKey {cat : List DbRow} {k : String} {r : DbRow} :
    r ∈ rowsWithKey cat k ↔ r ∈ cat ∧ r.inchi_key = some k := by
  unfold rowsWithKey
  rw [List.mem_filter, beq_iff_eq]

theorem sortedIdsForKey_perm (cat : List DbRow) (k : String) :
    List.Perm (sortedIdsForKey cat k)
      ((rowsWithKey cat k).map DbRow.compound_id) :=
  List.perm_insertionSort _ _

theorem sortedIdsForKey_sorted (cat : List DbRow) (k : String) :
    List.Sorted (· ≤ ·) (sortedIdsForKey cat k) :=
  List.sorted_insertionSort _ _

theorem sortedIdsForKey_nodup {cat : List DbRow}
    (hn : (cat.map DbRow.compound_id).Nodup) (k : String) :
    (sortedIdsForKey cat k).Nodup := by
  apply (sortedIdsForKey_perm cat k).nodup_iff.mpr
  exact hn.sublist ((List.filter_sublist cat).map DbRow.compound_id)

theorem mem_sortedIds_iff {cat : List DbRow} {k : String} {n : Nat} :
    n ∈ sortedIdsForKey cat k ↔
      ∃ r, r ∈ cat ∧ r.inchi_key = some k ∧ r.compound_id = n := by
  rw [(sortedIdsForKey_perm cat k).mem_iff, List.mem_map]
  constructor
  · rintro ⟨r, hr, rfl⟩
    rcases mem_rowsWithKey.mp hr with ⟨ha, hb⟩
    exact ⟨r, ha, hb, rfl⟩
  · rintro ⟨r, ha, hb, rfl⟩
    exact ⟨r, mem_rowsWithKey.mpr ⟨ha, hb⟩, rfl⟩

theorem rowsWithKey_eq_nil_of_sorted_nil {cat : List DbRow} {k : String}
    (h : sortedIdsForKey cat k = []) : rowsWithKey cat k = [] := by
  have hperm := sortedIdsForKey_perm cat k
  rw [h] at hperm
  have hmap := hperm.symm.eq_nil
  exact List.map_eq_nil_iff.mp hmap

theorem delete_for_key_sublist (s : List DbRow) (k : String) :
    List.Sublist (delete_for_key s k) s := by
  unfold delete_for_key
  split
  · exact List.Sublist.refl s
  · split
    · exact List.Sublist.refl s
    · exact List.filter_sublist s

theorem mem_delete_for_key {s : List DbRow}
    (hn : (s.map DbRow.compound_id).Nodup) (k : String) (r : DbRow) :
    r ∈ delete_for_key s k ↔
      (r ∈ s ∧ (r.inchi_key = some k → r.compound_id = minIdKey s k)) := by
  unfold delete_for_key
  cases hids : sortedIdsForKey s k with
  | nil =>
    have hempty : rowsWithKey s k = [] := rowsWithKey_eq_nil_of_sorted_nil hids
    constructor
    · intro hr
      refine ⟨hr, fun hk => ?_⟩
      exfalso
      have hmem : r ∈ rowsWithKey s k := mem_rowsWithKey.mpr ⟨hr, hk⟩
      rw [hempty] at hmem
      exact absurd hmem (by simp)
    · exact fun h => h.1
  | cons x ids =>
    dsimp only
    have hmin : minIdKey s k = x := by unfold minIdKey; rw [hids]; rfl
    have hnodup : (x :: ids).Nodup := by
      rw [← hids]; exact sortedIdsForKey_nodup hn k
    by_cases hids0 : ids.isEmpty
    · rw [if_pos hids0]
      have hidnil : ids = [] := List.isEmpty_iff.mp hids0
      constructor
      · intro hr
        refine ⟨hr, fun hk => ?_⟩
        have hidm : r.compound_id ∈ sortedIdsForKey s k :=
          mem_sortedIds_iff.mpr ⟨r, hr, hk, rfl⟩
        rw [hids, hidnil] at hidm
        rw [hmin]
        simpa using hidm
      · exact fun h => h.1
    · rw [if_neg hids0]
      rw [List.mem_filter]
      constructor
      · rintro ⟨hr, hnotin⟩
        have hnotin2 : r.compound_id ∉ ids := by simpa using hnotin
        refine ⟨hr, fun hk => ?_⟩
        have hidm : r.compound_id ∈ sortedIdsForKey s k :=
          mem_sortedIds_iff.mpr ⟨r, hr, hk, rfl⟩
        rw [hids] at hidm
        rcases List.mem_cons.mp hidm with he | hin
        · rw [hmin]; exact he
        · exact absurd hin hnotin2
      · rintro ⟨hr, himp⟩
        refine ⟨hr, ?_⟩
        suffices hns : r.compound_id ∉ ids by simpa using hns
        intro hin
        have hidm : r.compound_id ∈ sortedIdsForKey s k := by
          rw [hids]; exact List.mem_cons_of_mem _ hin
        rcases mem_sortedIds_iff.mp hidm with ⟨r2, hr2, hk2, hid2⟩
        have hrr : r2 = r := row_eq_of_id_eq hn hr2 hr hid2
        rw [hrr] at hk2
        have hx := himp hk2
        rw [hmin] at hx
        rw [hx] at hin
        exact absurd hin (List.nodup_cons.mp hnodup).1

theorem rowsWithKey_delete {s : List DbRow}
    (hn : (s.map DbRow.compound_id).Nodup) {k k2 : String} (hne : k2 ≠ k) :
    rowsWithKey (delete_for_key s k) k2 = rowsWithKey s k2 := by
  unfold delete_for_key
  cases hids : sortedIdsForKey s k with
  | nil => rfl
  | cons x ids =>
    dsimp only
    by_cases hids0 : ids.isEmpty
    · rw [if_pos hids0]
    · rw [if_neg hids0]
      unfold rowsWithKey
      rw [List.filter_filter]
      apply List.filter_congr
      intro r hr
      by_cases hkey : r.inchi_key = some k2
      · have hb : (r.inchi_key == some k2) = true := beq_iff_eq.mpr hkey
        simp only [hb, Bool.true_and]
        suffices hns : r.compound_id ∉ ids by simpa using hns
        intro hin
        have hidm : r.compound_id ∈ sortedIdsForKey s k := by
          rw [hids]; exact List.mem_cons_of_mem _ hin
        rcases mem_sortedIds_iff.mp hidm with ⟨r2, hr2, hk2, hid2⟩
        have hrr : r2 = r := row_eq_of_id_eq hn hr2 hr hid2
        rw [hrr, hkey] at hk2
        exact hne (Option.some.inj hk2)
      · have hb : (r.inchi_key == some k2) = false := by
          simp [hkey]
        simp [hb]

theorem minIdKey_delete {s : List DbRow}
    (hn : (s.map DbRow.compound_id).Nodup) {k k2 : String} (hne : k2 ≠ k) :
    minIdKey (delete_for_key s k) k2 = minIdKey s k2 := by
  unfold minIdKey sortedIdsForKey
  rw [rowsWithKey_delete hn hne]

theorem mem_foldl_delete {ks : List String} {s : List DbRow}
    (hn : (s.map DbRow.compound_id).Nodup) (hks : ks.Nodup) (r : DbRow) :
    r ∈ ks.foldl delete_for_key s ↔
      (r ∈ s ∧ ∀ k ∈ ks, r.inchi_key = some k →
        r.compound_id = minIdKey s k) := by
  induction ks generalizing s with
  | nil => simp
  | cons k ks ih =>
    rw [List.foldl_cons]
    have hn2 : ((delete_for_key s k).map DbRow.compound_id).Nodup :=
      hn.sublist ((delete_for_key_sublist s k).map DbRow.compound_id)
    have hks2 : ks.Nodup := (List.nodup_cons.mp hks).2
    have hkni : k ∉ ks := (List.nodup_cons.mp hks).1
    rw [ih hn2 hks2, mem_delete_for_key hn k r]
    constructor
    · rintro ⟨⟨hr, himp⟩, hall⟩
      refine ⟨hr, ?_⟩
      intro k2 hk2 hkey
      rcases List.mem_cons.mp hk2 with rfl | hk2in
      · exact himp hkey
      · have hne : k2 ≠ k := fun he => hkni (he ▸ hk2in)
        have hres := hall k2 hk2in hkey
        rwa [minIdKey_delete hn hne] at hres
    · rintro ⟨hr, hall⟩
      refine ⟨⟨hr, fun hk => hall k (by simp) hk⟩, ?_⟩
      intro k2 hk2 hkey
      have hne : k2 ≠ k := fun he => hkni (he ▸ hk2)
      rw [minIdKey_delete hn hne]
      exact hall k2 (List.mem_cons_of_mem _ hk2) hkey

theorem minIdKey_mem_group {cat : List DbRow} {k : String}
    (hne : rowsWithKey cat k ≠ []) :
    ∃ r, r ∈ rowsWithKey cat k ∧ r.compound_id = minIdKey cat k := by
  cases hids : sortedIdsForKey cat k with
  | nil => exact absurd (rowsWithKey_eq_nil_of_sorted_nil hids) hne
  | cons x ids =>
    have hmin : minIdKey cat k = x := by unfold minIdKey; rw [hids]; rfl
    have hidm : x ∈ sortedIdsForKey cat k := by rw [hids]; simp
    rcases mem_sortedIds_iff.mp hidm with ⟨r, hr, hk, hid⟩
    exact ⟨r, mem_rowsWithKey.mpr ⟨hr, hk⟩, by rw [hid, hmin]⟩

theorem minIdKey_le {cat : List DbRow} {k : String} {r : DbRow}
    (hr : r ∈ rowsWithKey cat k) : minIdKey cat k ≤ r.compound_id := by
  have hidmem : r.compound_id ∈ sortedIdsForKey cat k :=
    (sortedIdsForKey_perm cat k).mem_iff.mpr
      (List.mem_map.mpr ⟨r, hr, rfl⟩)
  cases hids : sortedIdsForKey cat k with
  | nil => rw [hids] at hidmem; exact absurd hidmem (by simp)
  | cons x ids =>
    rw [hids] at hidmem
    have hsorted := sortedIdsForKey_sorted cat k
    rw [hids] at hsorted
    have hmin : minIdKey cat k = x := by unfold minIdKey; rw [hids]; rfl
    rw [hmin]
    rcases List.mem_cons.mp hidmem with he | hin
    · rw [he]
    · exact List.rel_of_sorted_cons hsorted _ hin

theorem mem_duplicate_keys {cat : List DbRow} {k : String} :
    k ∈ duplicate_keys cat ↔
      ((∃ r ∈ cat, r.inchi_key = some k) ∧
        1 < (rowsWithKey cat k).length) := by
  unfold duplicate_keys
  rw [List.mem_filter, List.mem_dedup, List.mem_filterMap]
  simp

/-- Claim C10: the maintenance script deletes rows only among groups of two
or more rows sharing the same non-null InChIKey; in each such group exactly
the row with the smallest compound_id survives; rows with a null or unique
InChIKey are never deleted; and nothing is ever added.  The hypothesis is
the primary-key uniqueness of compound_id. -/
theorem remove_duplicates_spec (cat : List DbRow)
    (hids : (cat.map DbRow.compound_id).Nodup) :
    (∀ r ∈ cat, r.inchi_key = none → r ∈ remove_duplicates cat) ∧
    (∀ r ∈ cat, ∀ k, r.inchi_key = some k →
      (rowsWithKey cat k).length ≤ 1 → r ∈ remove_duplicates cat) ∧
    (∀ r ∈ cat, ∀ k, r.inchi_key = some k →
      2 ≤ (rowsWithKey cat k).length →
      (r ∈ remove_duplicates cat ↔ r.compound_id = minIdKey cat k)) ∧
    (∀ k, 2 ≤ (rowsWithKey cat k).length →
      ∃ r, r ∈ rowsWithKey cat k ∧ r.compound_id = minIdKey cat k ∧
        r ∈ remove_duplicates cat) ∧
    (∀ k, ∀ r ∈ rowsWithKey cat k, minIdKey cat k ≤ r.compound_id) ∧
    (∀ r ∈ remove_duplicates cat, r ∈ cat) := by
  have hksnd : (duplicate_keys cat).Nodup :=
    (List.nodup_dedup _).filter _
  have hchar : ∀ r, r ∈ remove_duplicates cat ↔
      (r ∈ cat ∧ ∀ k ∈ duplicate_keys cat, r.inchi_key = some k →
        r.compound_id = minIdKey cat k) := by
    intro r
    unfold remove_duplicates
    exact mem_foldl_delete hids hksnd r
  refine ⟨?_, ?_, ?_, ?_, fun k r hr => minIdKey_le hr, ?_⟩
  · intro r hr hnone
    rw [hchar r]
    refine ⟨hr, ?_⟩
    intro k _ hk
    rw [hnone] at hk
    exact absurd hk (by simp)
  · intro r hr k hk hlen
    rw [hchar r]
    refine ⟨hr, ?_⟩
    intro k2 hk2 hkey
    exfalso
    rw [hk] at hkey
    have hkk : k = k2 := Option.some.inj hkey
    rw [← hkk] at hk2
    have := (mem_duplicate_keys.mp hk2).2
    omega
  · intro r hr k hk hlen
    rw [hchar r]
    have hkdup : k ∈ duplicate_keys cat :=
      mem_duplicate_keys.mpr ⟨⟨r, hr, hk⟩, by omega⟩
    constructor
    · rintro ⟨-, hall⟩
      exact hall k hkdup hk
    · intro hmin
      refine ⟨hr, ?_⟩
      intro k2 hk2 hkey
      rw [hk] at hkey
      rw [← Option.some.inj hkey]
      exact hmin
  · intro k hlen
    have hne : rowsWithKey cat k ≠ [] := by
      intro hnil
      rw [hnil] at hlen
      simp at hlen
    rcases minIdKey_mem_group hne with ⟨r, hr, hid⟩
    refine ⟨r, hr, hid, ?_⟩
    rw [hchar r]
    rcases mem_rowsWithKey.mp hr with ⟨hrc, hrk⟩
    refine ⟨hrc, ?_⟩
    intro k2 hk2 hkey
    rw [hrk] at hkey
    rw [← Option.some.inj hkey]
    exact hid
  · intro r hr
    exact ((hchar r).mp hr).1

/-- Rows of the claim C10 witness catalog: two rows sharing key K, a
null-key row, and a unique-key row. -/
def c10r1 : DbRow :=
  { compound_id := 1, inchi_key := some "K", smiles_normalized := none,
    smiles_raw := none, common_name := none }

/-- Second row of the duplicate group of the claim C10 witness. -/
def c10r2 : DbRow :=
  { compound_id := 2, inchi_key := some "K", smiles_normalized := none,
    smiles_raw := none, common_name := none }

/-- The null-key row of the claim C10 witness. -/
def c10r3 : DbRow :=
  { compound_id := 3, inchi_key := none, smiles_normalized := none,
    smiles_raw := none, common_name := none }

/-- The unique-key row of the claim C10 witness. -/
def c10r4 : DbRow :=
  { compound_id := 4, inchi_key := some "L", smiles_normalized := none,
    smiles_raw := none, common_name := none }

/-- Witness for claim C10 at a concrete catalog: the null-key row survives,
and membership of the duplicate group's first row is equivalent to holding
the smallest id. -/
theorem remove_duplicates_spec_witness :
    (([c10r1, c10r2, c10r3, c10r4].map DbRow.compound_id).Nodup) ∧
    c10r3 ∈ remove_duplicates [c10r1, c10r2, c10r3, c10r4] ∧
    (c10r1 ∈ remove_duplicates [c10r1, c10r2, c10r3, c10r4] ↔
      c10r1.compound_id = minIdKey [c10r1, c10r2, c10r3, c10r4] "K") := by
  have hn : (([c10r1, c10r2, c10r3, c10r4] : List DbRow).map
      DbRow.compound_id).Nodup := by decide
  have h := remove_duplicates_spec [c10r1, c10r2, c10r3, c10r4] hn
  refine ⟨hn, ?_, ?_⟩
  · exact h.1 c10r3 (by simp) rfl
  · exact h.2.2.1 c10r1 (by simp) "K" rfl (by decide)
